import Mathlib

/-!
Shallow embedding of the flow-field simulations of this repository
(`src/flow.js`, the CPU canvas variant, and the WebGL variant with its
GLSL physics shader) and proofs about the claims C1-C10.

Conventions of the embedding:
* JavaScript / GLSL floating-point numbers are modelled as real numbers.
* `Math.sqrt`, `Math.sin`, `Math.cos`, `Math.atan2` are `Real.sqrt`,
  `Real.sin`, `Real.cos` and the argument of a complex number.
* `Math.floor` is `Int.floor`, GLSL `fract x` is `x - ⌊x⌋`.
* Every call to `Math.random()` is modelled by an explicit
  draw from a stream `ℕ → ℝ` of pre-drawn values together with a counter,
  in the order the source draws them.
* GLSL textures are functions from texture coordinates to RGBA values;
  a fragment shader is a function of its uniforms, the bound texture and
  the fragment's coordinate.
-/

/-- GLSL `fract`: the fractional part `x - floor x`. -/
noncomputable def glslFract (x : ℝ) : ℝ := x - ⌊x⌋

/-- Length of a 2-vector, as both sources compute it
(`Math.sqrt(dx*dx+dy*dy)`, GLSL `length`). -/
noncomputable def vlen (x y : ℝ) : ℝ := Real.sqrt (x * x + y * y)

/-- GLSL `mix a b t = a*(1-t)+b*t`, componentwise on 2-vectors. -/
def mix2 (a b : ℝ × ℝ) (t : ℝ) : ℝ × ℝ :=
  (a.1 * (1 - t) + b.1 * t, a.2 * (1 - t) + b.2 * t)

/-- JS `Math.atan2 y x`, modelled as the argument of the complex number
`x + y*I` (both give the angle in `(-π, π]`, with `atan2 0 0 = 0`). -/
noncomputable def atan2 (y x : ℝ) : ℝ := Complex.arg (Complex.mk x y)

/-! ## CPU variant: the simplex-like noise generator (flow.js, class NoiseGenerator)

The constructor builds a permutation table `perm` (512 entries, each < 256)
and a gradient table `gradP` from the seed; `noise2D` only reads the two
tables, so the embedding carries them as the generator's state.  Only the
first two components of each `grad3` row are ever read by `dot`, so the
gradients are stored as pairs. -/

structure NoiseGenerator where
  perm : ℕ → ℕ
  gradP : ℕ → ℤ × ℤ

/-- The `dot(g, x, y) = g[0]*x + g[1]*y` helper of flow.js. -/
def NoiseGenerator.dot2 (g : ℤ × ℤ) (x y : ℝ) : ℝ := (g.1 : ℝ) * x + (g.2 : ℝ) * y

/-- Embedding of `NoiseGenerator.noise2D` from flow.js: 2D simplex noise with
skew constant `F2 = 0.5*(√3-1)`, unskew `G2 = (3-√3)/6`, three corner
contributions with quartic falloff, scaled by 70.  The JS bitwise `i &= 255`
on the (possibly negative) floor result is `Int.emod · 256`. -/
noncomputable def NoiseGenerator.noise2D (gen : NoiseGenerator) (x y : ℝ) : ℝ :=
  let F2 : ℝ := 0.5 * (Real.sqrt 3 - 1)
  let G2 : ℝ := (3 - Real.sqrt 3) / 6
  let s := (x + y) * F2
  let i : ℤ := ⌊x + s⌋
  let j : ℤ := ⌊y + s⌋
  let t : ℝ := ((i : ℝ) + (j : ℝ)) * G2
  let X0 := (i : ℝ) - t
  let Y0 := (j : ℝ) - t
  let x0 := x - X0
  let y0 := y - Y0
  let i1 : ℕ := if x0 > y0 then 1 else 0
  let j1 : ℕ := if x0 > y0 then 0 else 1
  let x1 := x0 - (i1 : ℝ) + G2
  let y1 := y0 - (j1 : ℝ) + G2
  let x2 := x0 - 1 + 2 * G2
  let y2 := y0 - 1 + 2 * G2
  let ii : ℕ := (i.emod 256).toNat
  let jj : ℕ := (j.emod 256).toNat
  let gi0 := gen.gradP (ii + gen.perm jj)
  let gi1 := gen.gradP (ii + i1 + gen.perm (jj + j1))
  let gi2 := gen.gradP (ii + 1 + gen.perm (jj + 1))
  let t0 := 0.5 - x0 * x0 - y0 * y0
  let n0 := if t0 < 0 then 0 else (t0 * t0) * (t0 * t0) * NoiseGenerator.dot2 gi0 x0 y0
  let t1 := 0.5 - x1 * x1 - y1 * y1
  let n1 := if t1 < 0 then 0 else (t1 * t1) * (t1 * t1) * NoiseGenerator.dot2 gi1 x1 y1
  let t2 := 0.5 - x2 * x2 - y2 * y2
  let n2 := if t2 < 0 then 0 else (t2 * t2) * (t2 * t2) * NoiseGenerator.dot2 gi2 x2 y2
  70 * (n0 + n1 + n2)

/-- The noise-mode combinator of `Particle.update` in flow.js (the `switch` on
`config.noiseMode`, applied to the scaled sample point `(nx, ny)`):
0 = classic, 1 = turbulent fBm, 2 = ridged, 3 = billow, 4 = domain warp;
any other mode contributes 0 (forces only). -/
noncomputable def cpuNoiseValue (gen : NoiseGenerator) (mode : ℕ) (nx ny : ℝ) : ℝ :=
  if mode = 0 then gen.noise2D nx ny
  else if mode = 1 then
    gen.noise2D nx ny * 0.5 +
      gen.noise2D (nx * 2) (ny * 2) * 0.25 +
      gen.noise2D (nx * 4) (ny * 4) * 0.125 +
      gen.noise2D (nx * 8) (ny * 8) * 0.0625
  else if mode = 2 then
    let n0 := 1 - |gen.noise2D nx ny|
    let n1 := n0 * n0
    let n2 := n1 + (1 - |gen.noise2D (nx * 2) (ny * 2)|) * 0.5
    let n3 := n2 + (1 - |gen.noise2D (nx * 4) (ny * 4)|) * 0.25
    n3 * 0.7 - 0.5
  else if mode = 3 then
    (|gen.noise2D nx ny| * 0.5 +
      |gen.noise2D (nx * 2) (ny * 2)| * 0.25 +
      |gen.noise2D (nx * 4) (ny * 4)| * 0.125) * 2 - 0.5
  else if mode = 4 then
    let warpX := gen.noise2D nx ny * 0.5
    let warpY := gen.noise2D (nx + 5.2) (ny + 1.3) * 0.5
    gen.noise2D (nx + warpX) (ny + warpY) +
      gen.noise2D ((nx + warpX) * 2) ((ny + warpY) * 2) * 0.5
  else 0

/-! ## GPU variant: the GLSL simplex noise and hash (part_002, physics shader) -/

/-- GLSL `mod289` on a scalar. -/
noncomputable def mod289 (x : ℝ) : ℝ := x - ⌊x * (1 / 289)⌋ * 289

/-- GLSL `permute` on a scalar component. -/
noncomputable def glslPermute (x : ℝ) : ℝ := mod289 ((x * 34 + 1) * x)

/-- Embedding of the shader's `snoise(vec2)`: the standard GLSL 2D simplex
noise with its literal rational constants, written out componentwise. -/
noncomputable def gpuSnoise (v : ℝ × ℝ) : ℝ :=
  let Cx : ℝ := 0.211324865405187
  let Cy : ℝ := 0.366025403784439
  let Cz : ℝ := -0.577350269189626
  let Cw : ℝ := 0.024390243902439
  let d := (v.1 + v.2) * Cy
  let ix : ℝ := ⌊v.1 + d⌋
  let iy : ℝ := ⌊v.2 + d⌋
  let u := (ix + iy) * Cx
  let x0x := v.1 - ix + u
  let x0y := v.2 - iy + u
  let i1x : ℝ := if x0x > x0y then 1 else 0
  let i1y : ℝ := if x0x > x0y then 0 else 1
  let x12x := x0x + Cx - i1x
  let x12y := x0y + Cx - i1y
  let x12z := x0x + Cz
  let x12w := x0y + Cz
  let mix' := mod289 ix
  let miy := mod289 iy
  let p0 := glslPermute (glslPermute (miy + 0) + mix' + 0)
  let p1 := glslPermute (glslPermute (miy + i1y) + mix' + i1x)
  let p2 := glslPermute (glslPermute (miy + 1) + mix' + 1)
  let m0 := max (0.5 - (x0x * x0x + x0y * x0y)) 0
  let m1 := max (0.5 - (x12x * x12x + x12y * x12y)) 0
  let m2 := max (0.5 - (x12z * x12z + x12w * x12w)) 0
  let m0a := (m0 * m0) * (m0 * m0)
  let m1a := (m1 * m1) * (m1 * m1)
  let m2a := (m2 * m2) * (m2 * m2)
  let xg0 := 2 * glslFract (p0 * Cw) - 1
  let xg1 := 2 * glslFract (p1 * Cw) - 1
  let xg2 := 2 * glslFract (p2 * Cw) - 1
  let h0 := |xg0| - 0.5
  let h1 := |xg1| - 0.5
  let h2 := |xg2| - 0.5
  let ox0 : ℝ := ⌊xg0 + 0.5⌋
  let ox1 : ℝ := ⌊xg1 + 0.5⌋
  let ox2 : ℝ := ⌊xg2 + 0.5⌋
  let a00 := xg0 - ox0
  let a01 := xg1 - ox1
  let a02 := xg2 - ox2
  let m0b := m0a * (1.79284291400159 - 0.85373472095314 * (a00 * a00 + h0 * h0))
  let m1b := m1a * (1.79284291400159 - 0.85373472095314 * (a01 * a01 + h1 * h1))
  let m2b := m2a * (1.79284291400159 - 0.85373472095314 * (a02 * a02 + h2 * h2))
  let g0 := a00 * x0x + h0 * x0y
  let g1 := a01 * x12x + h1 * x12y
  let g2 := a02 * x12z + h2 * x12w
  130 * (m0b * g0 + m1b * g1 + m2b * g2)

/-- Embedding of the shader's hash-based `random(vec2 st)`. -/
noncomputable def gpuRandom (st : ℝ × ℝ) : ℝ :=
  let p3x := glslFract (st.1 * 0.1031)
  let p3y := glslFract (st.2 * 0.1031)
  let p3z := glslFract (st.1 * 0.1031)
  let q3x := p3x + (p3x * (p3y + 33.33) + p3y * (p3z + 33.33) + p3z * (p3x + 33.33))
  let q3y := p3y + (p3x * (p3y + 33.33) + p3y * (p3z + 33.33) + p3z * (p3x + 33.33))
  let q3z := p3z + (p3x * (p3y + 33.33) + p3y * (p3z + 33.33) + p3z * (p3x + 33.33))
  glslFract ((q3x + q3y) * q3z)

/-- Embedding of the shader's `getNoiseValue(pos, time)`: scale the position,
then dispatch on `u_noiseMode` exactly as the GLSL `if` chain does. -/
noncomputable def gpuGetNoiseValue (mode : ℕ) (ns : ℝ) (pos : ℝ × ℝ) (time : ℝ) : ℝ :=
  let np : ℝ × ℝ := (pos.1 * ns + time * 0.0001, pos.2 * ns + time * 0.0001)
  if mode = 0 then gpuSnoise np
  else if mode = 1 then
    gpuSnoise np * 0.5 +
      gpuSnoise (np.1 * 2, np.2 * 2) * 0.25 +
      gpuSnoise (np.1 * 4, np.2 * 4) * 0.125 +
      gpuSnoise (np.1 * 8, np.2 * 8) * 0.0625
  else if mode = 2 then
    let n0 := 1 - |gpuSnoise np|
    let n1 := n0 * n0
    let n2 := n1 + (1 - |gpuSnoise (np.1 * 2, np.2 * 2)|) * 0.5
    let n3 := n2 + (1 - |gpuSnoise (np.1 * 4, np.2 * 4)|) * 0.25
    n3 * 0.7 - 0.5
  else if mode = 3 then
    |gpuSnoise np| * 0.5 +
      |gpuSnoise (np.1 * 2, np.2 * 2)| * 0.25 +
      |gpuSnoise (np.1 * 4, np.2 * 4)| * 0.125
  else if mode = 4 then
    let warpX := gpuSnoise np * 0.5
    let warpY := gpuSnoise (np.1 + 5.2, np.2 + 1.3) * 0.5
    gpuSnoise (np.1 + warpX, np.2 + warpY) +
      gpuSnoise ((np.1 + warpX) * 2, (np.2 + warpY) * 2) * 0.5
  else 0

/-! ## CPU variant: force fields (flow.js, class ForceField) -/

/-- The force-field types of flow.js (`allTypes` in the constructor). -/
inductive CpuFieldType
  | sink | source | vortex | gravity | shear | repulsor | turbulence | lane
deriving DecidableEq

/-- A CPU force field: the fields of `ForceField` that the simulation reads.
The constructor randomizes them; claims quantify over them or fix them. -/
structure CpuField where
  x : ℝ
  y : ℝ
  vx : ℝ
  vy : ℝ
  ftype : CpuFieldType
  strength : ℝ
  radius : ℝ
  rotation : ℝ
  life : ℝ
  maxLife : ℝ
  pulsePhase : ℝ
  shearAngle : ℝ
  laneAngle : ℝ
  turbulenceSeed : ℝ

/-- The life-based fade factor of `ForceField.getForce`: the source sets
`lifeFactor = 1`, overwrites it with `life/100` when `life < 100`, and then
overwrites it with `(maxLife-life)/100` when `life > maxLife-100` (the last
assignment wins). -/
noncomputable def cpuLifeFactor (f : CpuField) : ℝ :=
  if f.life > f.maxLife - 100 then (f.maxLife - f.life) / 100
  else if f.life < 100 then f.life / 100
  else 1

/-- Embedding of `ForceField.getForce(px, py)` from flow.js: zero outside the
annulus `5 ≤ dist ≤ radius`, otherwise the per-type force vector scaled by
distance falloff, sinusoidal pulse and the life fade factor. -/
noncomputable def CpuField.getForce (gen : NoiseGenerator) (time : ℝ)
    (f : CpuField) (px py : ℝ) : ℝ × ℝ :=
  let dx := px - f.x
  let dy := py - f.y
  let dist := vlen dx dy
  if dist > f.radius ∨ dist < 5 then (0, 0) else
  let pulse := 1 + Real.sin f.pulsePhase * 0.3
  let falloff := 1 - dist / f.radius
  let strength := f.strength / 100 * falloff * pulse
  let F := strength * cpuLifeFactor f
  match f.ftype with
  | .sink => (-(dx / dist) * F, -(dy / dist) * F)
  | .source => (dx / dist * F, dy / dist * F)
  | .vortex => (-dy / dist * F * f.rotation, dx / dist * F * f.rotation)
  | .gravity =>
      let G := F * 2
      (-(dx / dist) * G + -dy / dist * G * 0.3,
       -(dy / dist) * G + dx / dist * G * 0.3)
  | .shear =>
      let sd : ℝ := if dy > 0 then 1 else if dy < 0 then -1 else 1
      (Real.cos f.shearAngle * F * sd * 1.5, Real.sin f.shearAngle * F * sd * 1.5)
  | .repulsor =>
      let R := F * 3 * (f.radius / (dist + 10))
      (dx / dist * R, dy / dist * R)
  | .turbulence =>
      let a := gen.noise2D (px * 0.1 + f.turbulenceSeed) (py * 0.1 + time * 0.01) * Real.pi * 2
      (Real.cos a * (F * 2), Real.sin a * (F * 2))
  | .lane => (Real.cos f.laneAngle * (F * 2), Real.sin f.laneAngle * (F * 2))

/-- Embedding of `ForceField.update()`: drift, bounce the drift velocity off
the edges (testing the already-moved position), clamp into bounds, age by one
frame and advance the pulse phase. -/
noncomputable def CpuField.update (w h : ℝ) (f : CpuField) : CpuField :=
  let x1 := f.x + f.vx
  let y1 := f.y + f.vy
  let vx1 := if x1 < 0 ∨ x1 > w then -f.vx else f.vx
  let vy1 := if y1 < 0 ∨ y1 > h then -f.vy else f.vy
  { f with
    x := max 0 (min w x1)
    y := max 0 (min h y1)
    vx := vx1
    vy := vy1
    life := f.life - 1
    pulsePhase := f.pulsePhase + 0.05 }

/-- Embedding of `ForceField.isDead()`. -/
noncomputable def CpuField.isDead (f : CpuField) : Prop := f.life ≤ 0

noncomputable instance (f : CpuField) : Decidable f.isDead := by
  unfold CpuField.isDead; infer_instance

/-! ## CPU variant: particles (flow.js, class Particle) -/

/-- The mutable per-particle state of flow.js that the physics reads or
writes (color bookkeeping is omitted: it never feeds back into physics). -/
structure CpuParticle where
  x : ℝ
  y : ℝ
  prevX : ℝ
  prevY : ℝ
  speed : ℝ
  life : ℝ
  maxLife : ℝ
  velocity : ℝ

/-- The CPU mouse modes of `config.mouseMode`. -/
inductive CpuMouseMode
  | vortex | attract | repel
deriving DecidableEq

/-- The CPU particle-interaction modes of `config.particleInteraction`. -/
inductive CpuInteractionMode
  | none | attract | repel | align | zones
deriving DecidableEq

/-- The CPU configuration object (the numeric fields the physics reads). -/
structure CpuConfig where
  noiseScale : ℝ
  speed : ℝ
  noiseMode : ℕ
  backgroundStrength : ℝ
  forceFieldStrength : ℝ
  brownianMotion : ℝ
  spawnRate : ℝ
  respawnRate : ℝ
  globalGravity : ℝ
  interactionStrength : ℝ
  interactionRadius : ℝ
  mouseMode : CpuMouseMode
  particleInteraction : CpuInteractionMode

/-- The CPU mouse state.  The source keeps a position that can be `null` and
an `active` flag and guards on `mouse.active && mouse.x !== null`; the single
`active` flag here models that conjunction. -/
structure CpuMouse where
  x : ℝ
  y : ℝ
  radius : ℝ
  active : Bool

/-- Embedding of the mouse-interaction block of `Particle.update` (flow.js):
it adjusts the accumulated move vector `mv` only when the mouse is active and
the particle lies strictly inside the annulus `5 < dist < radius`. -/
noncomputable def cpuMouseAdjust (cfg : CpuConfig) (mouse : CpuMouse)
    (px py : ℝ) (mv : ℝ × ℝ) : ℝ × ℝ :=
  if mouse.active then
    let dx := px - mouse.x
    let dy := py - mouse.y
    let dist := vlen dx dy
    if dist < mouse.radius ∧ dist > 5 then
      let force := (mouse.radius - dist) / mouse.radius
      let mouseAngle := atan2 dy dx
      match cfg.mouseMode with
      | .vortex =>
          let swirlAngle := mouseAngle + Real.pi / 2
          let newAngle := atan2 mv.2 mv.1
          let blendedAngle := newAngle * (1 - force * 0.8) + swirlAngle * (force * 0.8)
          let speed := Real.sqrt (mv.1 * mv.1 + mv.2 * mv.2)
          (Real.cos blendedAngle * speed * (1 + force),
           Real.sin blendedAngle * speed * (1 + force))
      | .attract => (mv.1 - dx / dist * force * 3, mv.2 - dy / dist * force * 3)
      | .repel => (mv.1 + dx / dist * force * 3, mv.2 + dy / dist * force * 3)
    else mv
  else mv

/-- Embedding of `Particle.reset()`: new uniform-random position, fresh
speed and lifetime.  `r1 r2 r3 r4` are the four `Math.random()` draws. -/
noncomputable def cpuReset (cfg : CpuConfig) (w h r1 r2 r3 r4 : ℝ) : CpuParticle :=
  { x := r1 * w
    y := r2 * h
    prevX := r1 * w
    prevY := r2 * h
    speed := cfg.speed * (0.5 + r3 * 0.5)
    life := 0
    maxLife := 100 + r4 * 200
    velocity := 0 }

/-- One iteration of the neighbor loop of the particle-interaction block:
accumulates `(interactX, interactY, alignX, alignY, neighborCount)`.  The
source's `other === this` reference check is modelled by the caller passing
the list of *other* particles. -/
noncomputable def cpuNeighborAccum (cfg : CpuConfig) (activeMode : CpuInteractionMode)
    (px py : ℝ) (acc : ℝ × ℝ × ℝ × ℝ × ℕ) (other : CpuParticle) : ℝ × ℝ × ℝ × ℝ × ℕ :=
  let dx := other.x - px
  let dy := other.y - py
  let dist := Real.sqrt (dx * dx + dy * dy)
  if dist > 0 ∧ dist < cfg.interactionRadius then
    let force := (cfg.interactionRadius - dist) / cfg.interactionRadius
    match activeMode with
    | .attract => (acc.1 + dx / dist * force, acc.2.1 + dy / dist * force,
                   acc.2.2.1, acc.2.2.2.1, acc.2.2.2.2 + 1)
    | .repel => (acc.1 - dx / dist * force * 2, acc.2.1 - dy / dist * force * 2,
                 acc.2.2.1, acc.2.2.2.1, acc.2.2.2.2 + 1)
    | .align => (acc.1, acc.2.1,
                 acc.2.2.1 + (other.x - other.prevX), acc.2.2.2.1 + (other.y - other.prevY),
                 acc.2.2.2.2 + 1)
    | _ => (acc.1, acc.2.1, acc.2.2.1, acc.2.2.2.1, acc.2.2.2.2 + 1)
  else acc

/-- The particle-interaction block of `Particle.update`: picks the active mode
(per-position noise zones when `particleInteraction = zones`), folds the
neighbor loop over the nearby particles, and adjusts the move vector. -/
noncomputable def cpuInteractionAdjust (cfg : CpuConfig) (gen : NoiseGenerator)
    (time : ℝ) (others : List CpuParticle) (p : CpuParticle) (mv : ℝ × ℝ) : ℝ × ℝ :=
  if cfg.particleInteraction = .none then mv else
  let activeMode :=
    if cfg.particleInteraction = .zones then
      let zoneNoise := gen.noise2D (p.x * 0.005 + time * 0.0002) (p.y * 0.005)
      if zoneNoise < -0.3 then CpuInteractionMode.attract
      else if zoneNoise > 0.3 then CpuInteractionMode.repel
      else CpuInteractionMode.align
    else cfg.particleInteraction
  let acc := others.foldl (cpuNeighborAccum cfg activeMode p.x p.y) (0, 0, 0, 0, 0)
  let neighborCount := acc.2.2.2.2
  if neighborCount > 0 then
    if activeMode = .align then
      let alignX := acc.2.2.1 / (neighborCount : ℝ)
      let alignY := acc.2.2.2.1 / (neighborCount : ℝ)
      let alignMag := Real.sqrt (alignX * alignX + alignY * alignY)
      if alignMag > 0 then
        (mv.1 * 0.7 + alignX / alignMag * p.speed * 0.3 * cfg.interactionStrength,
         mv.2 * 0.7 + alignY / alignMag * p.speed * 0.3 * cfg.interactionStrength)
      else mv
    else
      (mv.1 + acc.1 * cfg.interactionStrength * 0.5,
       mv.2 + acc.2.1 * cfg.interactionStrength * 0.5)
  else mv

/-- Embedding of `Particle.update()` from flow.js, one frame for one particle.
`others` is the list of nearby particles excluding the updated particle
itself (the source's `other === this` skip); `rb1 rb2` are the Brownian
draws and `r1 r2 r3 r4` the draws `reset()` would consume if the particle
leaves the canvas or exceeds its lifetime. -/
noncomputable def cpuUpdate (cfg : CpuConfig) (gen : NoiseGenerator)
    (time w h : ℝ) (mouse : CpuMouse) (fields : List CpuField)
    (others : List CpuParticle) (rb1 rb2 r1 r2 r3 r4 : ℝ) (p : CpuParticle) : CpuParticle :=
  let mv0 : ℝ × ℝ :=
    if cfg.noiseMode ≠ 5 then
      let nx := p.x * cfg.noiseScale + time * 0.0001
      let ny := p.y * cfg.noiseScale + time * 0.0001
      let noiseVal := cpuNoiseValue gen cfg.noiseMode nx ny
      let angle := noiseVal * Real.pi * 4
      (Real.cos angle * p.speed * cfg.backgroundStrength,
       Real.sin angle * p.speed * cfg.backgroundStrength)
    else (0, 0)
  let mv1 : ℝ × ℝ :=
    if cfg.brownianMotion > 0 then
      (mv0.1 + (rb1 - 0.5) * cfg.brownianMotion, mv0.2 + (rb2 - 0.5) * cfg.brownianMotion)
    else mv0
  let mv2 : ℝ × ℝ := fields.foldl
    (fun mv f =>
      let force := f.getForce gen time p.x p.y
      (mv.1 + force.1 * cfg.forceFieldStrength, mv.2 + force.2 * cfg.forceFieldStrength))
    mv1
  let mv3 : ℝ × ℝ :=
    if cfg.globalGravity ≠ 0 then (mv2.1, mv2.2 + cfg.globalGravity) else mv2
  let mv4 := cpuInteractionAdjust cfg gen time others p mv3
  let mv5 := cpuMouseAdjust cfg mouse p.x p.y mv4
  let newX := p.x + mv5.1
  let newY := p.y + mv5.2
  let newLife := p.life + 1
  if newX < 0 ∨ newX > w ∨ newY < 0 ∨ newY > h ∨ newLife > p.maxLife then
    cpuReset cfg w h r1 r2 r3 r4
  else
    { p with
      x := newX
      y := newY
      prevX := p.x
      prevY := p.y
      velocity := Real.sqrt (mv5.1 * mv5.1 + mv5.2 * mv5.2)
      life := newLife }

/-! ## CPU variant: force-field capacity (flow.js spawn call sites) -/

/-- The spawn-related operations on the CPU force-field list.  `spawnKey`
is `spawnForceField` (keyboard keys 1-8 and the random spawn in `animate`,
both guarded by `length < 15`); `clickSpawn` is the canvas click handler
(guarded by `length < 10`); `clearAll` is `clearForceFields`;
`stepFields` is the per-frame `filter(isDead)` plus `update()` pass of
`animate`.  Each spawning operation carries the `ForceField` the source's
randomized constructor would have produced. -/
inductive CpuOp
  | spawnKey (f : CpuField)
  | clickSpawn (f : CpuField)
  | clearAll
  | stepFields (w h : ℝ)

/-- Apply one CPU force-field operation to the list, as the call sites do. -/
noncomputable def cpuApplyOp (fs : List CpuField) : CpuOp → List CpuField
  | .spawnKey f => if fs.length < 15 then fs ++ [f] else fs
  | .clickSpawn f => if fs.length < 10 then fs ++ [f] else fs
  | .clearAll => []
  | .stepFields w h => (fs.filter (fun f => ¬ f.isDead)).map (CpuField.update w h)

/-- Run a sequence of CPU force-field operations. -/
noncomputable def cpuRunOps (ops : List CpuOp) (fs : List CpuField) : List CpuField :=
  ops.foldl cpuApplyOp fs

/-! ## CPU variant: strength-adjusting keyboard handlers (flow.js keydown) -/

/-- The four keydown cases that mutate `backgroundStrength` ('[' and ']')
and `forceFieldStrength` ('-' and '='). -/
inductive CpuKey
  | lbracket | rbracket | minus | equal

/-- Embedding of the corresponding `keydown` handler cases: each clamps
with `Math.max` / `Math.min` while stepping by 0.2.  The state is the pair
`(backgroundStrength, forceFieldStrength)`. -/
noncomputable def cpuApplyKey (s : ℝ × ℝ) : CpuKey → ℝ × ℝ
  | .lbracket => (max 0 (s.1 - 0.2), s.2)
  | .rbracket => (min 2 (s.1 + 0.2), s.2)
  | .minus => (s.1, max 0.2 (s.2 - 0.2))
  | .equal => (s.1, min 3 (s.2 + 0.2))

/-- Run a sequence of strength-adjusting keys. -/
noncomputable def cpuRunKeys (ks : List CpuKey) (s : ℝ × ℝ) : ℝ × ℝ :=
  ks.foldl cpuApplyKey s

/-! ## GPU variant: configuration, mouse and force-field uniforms (part_002) -/

/-- The GPU configuration (`FlowFieldsGL.config`), restricted to the fields
the simulation core reads.  Rendering-only fields (opacity, size, color
scheme) are omitted. -/
structure GpuConfig where
  noiseScale : ℝ
  speed : ℝ
  noiseMode : ℕ
  backgroundStrength : ℝ
  forceFieldStrength : ℝ
  brownianMotion : ℝ
  respawnRate : ℝ
  zonesEnabled : Bool
  zonesStrength : ℝ
  globalGravity : ℝ
  globalSwirl : ℝ
  chargeInteraction : ℝ
  chargeRatio : ℝ
  gravityInteraction : ℝ
  friction : ℝ
  forceSpawnRate : ℝ
  forceLifetime : ℝ
  maxForceRadius : ℝ

/-- The default `FlowFieldsGL` configuration values (constructor of
part_002) for the fields of `GpuConfig`. -/
noncomputable def gpuDefaultConfig : GpuConfig :=
  { noiseScale := 0.003
    speed := 1.0
    noiseMode := 1
    backgroundStrength := 1.0
    forceFieldStrength := 1.0
    brownianMotion := 1.5
    respawnRate := 0.002
    zonesEnabled := false
    zonesStrength := 1.0
    globalGravity := 0
    globalSwirl := 0
    chargeInteraction := 0
    chargeRatio := 0.5
    gravityInteraction := 0
    friction := 0.005
    forceSpawnRate := 0
    forceLifetime := 1.0
    maxForceRadius := 200 }

/-- The GPU mouse state: position, radius (`u_mouse`), strength and mode. -/
structure GpuMouse where
  x : ℝ
  y : ℝ
  radius : ℝ
  strength : ℝ
  mode : ℕ

/-- One entry of the `u_forceFields` uniform array: 8 floats per field as
`getForceFieldUniforms` packs them (`life` is already divided by 500,
`active` is the 0/1 flag in slot 7). -/
structure GpuField where
  x : ℝ
  y : ℝ
  ftype : ℝ
  strength : ℝ
  radius : ℝ
  rotation : ℝ
  life : ℝ
  active : ℝ

/-- A host-side force field of `FlowFieldsGL.forceFields` (the object pushed
by `addForceField`). -/
structure GpuHostField where
  x : ℝ
  y : ℝ
  ftype : ℝ
  strength : ℝ
  radius : ℝ
  rotation : ℝ
  life : ℝ
  vx : ℝ
  vy : ℝ

/-- Embedding of `getForceFieldUniforms`: uniform entry `i` packs host field
`i` with its life normalized by 500 and active flag 1; entries with no field
get active flag 0. -/
noncomputable def gpuFieldUniforms (fs : List GpuHostField) : ℕ → GpuField :=
  fun i => match fs.get? i with
  | some f => { x := f.x, y := f.y, ftype := f.ftype, strength := f.strength,
                radius := f.radius, rotation := f.rotation, life := f.life / 500,
                active := 1 }
  | none => { x := 0, y := 0, ftype := 0, strength := 0, radius := 0, rotation := 0,
              life := 0, active := 0 }

/-! ## GPU variant: the force-field evaluation of the physics shader -/

/-- The contribution of one uniform entry to `getForceFieldEffect`: zero when
the entry is inactive or the query point is outside the annulus
`5 ≤ dist ≤ radius` (the loop's `continue` cases), otherwise the per-type
force with scale `s = (strength/100) * falloff * life`. -/
noncomputable def gpuFieldContrib (time : ℝ) (f : GpuField) (pos : ℝ × ℝ) : ℝ × ℝ :=
  if f.active < 0.5 then (0, 0) else
  let diffX := pos.1 - f.x
  let diffY := pos.2 - f.y
  let dist := vlen diffX diffY
  if dist > f.radius ∨ dist < 5 then (0, 0) else
  let falloff := 1 - dist / f.radius
  let s := f.strength / 100 * falloff * f.life
  if f.ftype < 0.5 then
    (-(diffX / dist * s), -(diffY / dist * s))
  else if f.ftype < 1.5 then
    (diffX / dist * s, diffY / dist * s)
  else if f.ftype < 2.5 then
    (-diffY / dist * s * f.rotation, diffX / dist * s * f.rotation)
  else if f.ftype < 3.5 then
    (-(diffX / dist * s * 2) + -diffY / dist * (s * 0.3),
     -(diffY / dist * s * 2) + diffX / dist * (s * 0.3))
  else
    let angle := gpuSnoise (pos.1 * 0.1 + time * 0.01, pos.2 * 0.1 + time * 0.01) * 6.28318
    (Real.cos angle * (s * 2), Real.sin angle * (s * 2))

/-- Embedding of the shader's `getForceFieldEffect(pos)`.  The GLSL loop runs
`for (int i = 0; i < 16; i++)` and breaks at `i >= u_forceFieldCount`, so it
sums the contributions of the first `min 16 count` uniform entries only. -/
noncomputable def gpuForceFieldEffect (u : ℕ → GpuField) (count : ℕ)
    (time : ℝ) (pos : ℝ × ℝ) : ℝ × ℝ :=
  ∑ i ∈ Finset.range (min 16 count), gpuFieldContrib time (u i) pos

/-- Modelled from the spec: `evaluateForceAt` "sums, over all live fields"
(§4.2), i.e. over every one of the `count ≤ 40` uploaded fields.  This is the
spec's summation, for comparison with `gpuForceFieldEffect`. -/
noncomputable def specForceFieldSum (u : ℕ → GpuField) (count : ℕ)
    (time : ℝ) (pos : ℝ × ℝ) : ℝ × ℝ :=
  ∑ i ∈ Finset.range count, gpuFieldContrib time (u i) pos

/-! ## GPU variant: particle interactions, mouse, zones and the step (shader main) -/

/-- Embedding of the shader's `getCharge(texCoord)`. -/
noncomputable def gpuGetCharge (textureSize chargeRatio : ℝ) (tc : ℝ × ℝ) : ℝ :=
  let id := tc.1 * textureSize + tc.2 * textureSize * textureSize
  if glslFract (id * 0.7919) < chargeRatio then 1 else -1

/-- One sample term of the charge-interaction spiral loop. -/
noncomputable def gpuChargeSample (textureSize chargeRatio time : ℝ)
    (tex : ℝ × ℝ → ℝ × ℝ × ℝ × ℝ) (myCharge : ℝ) (pos tc : ℝ × ℝ) (i : ℕ) : ℝ × ℝ :=
  let angle := (i : ℝ) * 2.399 + time * 0.01
  let r := ((i : ℝ) + 1) * 0.05
  let offX := Real.cos angle * r
  let offY := Real.sin angle * r
  let sc : ℝ × ℝ := (glslFract (tc.1 + offX), glslFract (tc.2 + offY))
  let other := tex sc
  let diffX := pos.1 - other.1
  let diffY := pos.2 - other.2.1
  let dist := vlen diffX diffY
  if dist > 5 ∧ dist < 100 then
    let forceMag := 1 / (dist * dist + 10)
    let chargeProduct := myCharge * gpuGetCharge textureSize chargeRatio sc
    (diffX / dist * (forceMag * chargeProduct * 50), diffY / dist * (forceMag * chargeProduct * 50))
  else (0, 0)

/-- Embedding of `getChargeInteraction(pos, texCoord)`: zero when the
interaction strength is below the 0.001 guard, otherwise 16 spiral samples
of the previous frame's particle texture. -/
noncomputable def gpuChargeInteraction (cfg : GpuConfig) (textureSize time : ℝ)
    (tex : ℝ × ℝ → ℝ × ℝ × ℝ × ℝ) (pos tc : ℝ × ℝ) : ℝ × ℝ :=
  if cfg.chargeInteraction < 0.001 then (0, 0) else
  let myCharge := gpuGetCharge textureSize cfg.chargeRatio tc
  let total := ∑ i ∈ Finset.range 16,
    gpuChargeSample textureSize cfg.chargeRatio time tex myCharge pos tc i
  (total.1 * cfg.chargeInteraction, total.2 * cfg.chargeInteraction)

/-- One sample term of the gravity-interaction spiral loop. -/
noncomputable def gpuGravitySample (time : ℝ) (tex : ℝ × ℝ → ℝ × ℝ × ℝ × ℝ)
    (pos tc : ℝ × ℝ) (i : ℕ) : ℝ × ℝ :=
  let angle := (i : ℝ) * 2.399 + time * 0.01
  let r := ((i : ℝ) + 1) * 0.05
  let sc : ℝ × ℝ := (glslFract (tc.1 + Real.cos angle * r), glslFract (tc.2 + Real.sin angle * r))
  let other := tex sc
  let diffX := other.1 - pos.1
  let diffY := other.2.1 - pos.2
  let dist := vlen diffX diffY
  if dist > 5 ∧ dist < 120 then
    let forceMag := 1 / (dist * dist + 10)
    (diffX / dist * (forceMag * 50), diffY / dist * (forceMag * 50))
  else (0, 0)

/-- Embedding of `getGravityInteraction(pos, texCoord)`. -/
noncomputable def gpuGravityInteraction (cfg : GpuConfig) (time : ℝ)
    (tex : ℝ × ℝ → ℝ × ℝ × ℝ × ℝ) (pos tc : ℝ × ℝ) : ℝ × ℝ :=
  if |cfg.gravityInteraction| < 0.001 then (0, 0) else
  let total := ∑ i ∈ Finset.range 16, gpuGravitySample time tex pos tc i
  (total.1 * cfg.gravityInteraction, total.2 * cfg.gravityInteraction)

/-- The mouse distance the shader computes (`length(pos - u_mouse.xy)`). -/
noncomputable def gpuMouseDist (mouse : GpuMouse) (pos : ℝ × ℝ) : ℝ :=
  vlen (pos.1 - mouse.x) (pos.2 - mouse.y)

/-- Embedding of the mouse-interaction block of the physics shader: zero
unless `5 < dist < radius`, otherwise vortex / attract / repel by mode. -/
noncomputable def gpuMouseForce (mouse : GpuMouse) (speed : ℝ) (pos : ℝ × ℝ) : ℝ × ℝ :=
  let diffX := pos.1 - mouse.x
  let diffY := pos.2 - mouse.y
  let dist := gpuMouseDist mouse pos
  if dist < mouse.radius ∧ dist > 5 then
    let force := (mouse.radius - dist) / mouse.radius * mouse.strength
    if mouse.mode = 0 then
      (-diffY / dist * (speed * 2 * force), diffX / dist * (speed * 2 * force))
    else if mouse.mode = 1 then
      (-(diffX / dist * (force * 3)), -(diffY / dist * (force * 3)))
    else
      (diffX / dist * (force * 3), diffY / dist * (force * 3))
  else (0, 0)

/-- Embedding of the zones block: boost / swirl / turbulence adjustment of
the flow vector by zone noise, when `u_zonesEnabled` is set. -/
noncomputable def gpuZonesAdjust (cfg : GpuConfig) (time : ℝ) (pos : ℝ × ℝ)
    (fd : ℝ × ℝ) : ℝ × ℝ :=
  if cfg.zonesEnabled then
    let zoneNoise := gpuSnoise (pos.1 * 0.003 + time * 0.0001, pos.2 * 0.003 + time * 0.0001)
    let zoneNoise2 := gpuSnoise (pos.1 * 0.005 + 100, pos.2 * 0.005 + 50)
    if zoneNoise < -0.3 then
      (fd.1 * (1.5 * cfg.zonesStrength), fd.2 * (1.5 * cfg.zonesStrength))
    else if zoneNoise > 0.3 then
      let cX := pos.1 + gpuSnoise (pos.1 * 0.01, pos.2 * 0.01) * 100
      let cY := pos.2 + gpuSnoise (pos.2 * 0.01, pos.1 * 0.01) * 100
      let tcX := cX - pos.1
      let tcY := cY - pos.2
      (fd.1 + -tcY * (0.02 * cfg.zonesStrength), fd.2 + tcX * (0.02 * cfg.zonesStrength))
    else
      let turbAngle := zoneNoise2 * 6.28318
      (fd.1 + Real.cos turbAngle * (0.5 * cfg.zonesStrength),
       fd.2 + Real.sin turbAngle * (0.5 * cfg.zonesStrength))
  else fd

/-- The shader's edge wrap for one axis: a single conditional add followed by
a single conditional subtract (`if (p < 0) p += w; if (p > w) p -= w;`). -/
noncomputable def gpuWrap (w p : ℝ) : ℝ :=
  let p1 := if p < 0 then p + w else p
  if p1 > w then p1 - w else p1

/-- Embedding of the physics fragment shader's `main`, the per-particle step:
a pure function of the uniforms, the previous frame's particle texture `tex`
and the fragment's texture coordinate `tc`, returning the new
`(x, y, vx, vy)`. -/
noncomputable def gpuMain (cfg : GpuConfig) (time resW resH textureSize : ℝ)
    (mouse : GpuMouse) (u : ℕ → GpuField) (count : ℕ)
    (tex : ℝ × ℝ → ℝ × ℝ × ℝ × ℝ) (tc : ℝ × ℝ) : ℝ × ℝ × ℝ × ℝ :=
  let particle := tex tc
  let pos : ℝ × ℝ := (particle.1, particle.2.1)
  let vel : ℝ × ℝ := (particle.2.2.1, particle.2.2.2)
  let noiseVal := gpuGetNoiseValue cfg.noiseMode cfg.noiseScale pos time
  let flowDir : ℝ × ℝ :=
    if cfg.noiseMode = 5 then (0, 0)
    else
      let posOffset := (pos.1 + pos.2) * 0.001
      let angle := (noiseVal + posOffset) * 12.566370614
      (Real.cos angle * (cfg.speed * cfg.backgroundStrength),
       Real.sin angle * (cfg.speed * cfg.backgroundStrength))
  let fe0 := gpuForceFieldEffect u count time pos
  let fe1 : ℝ × ℝ := (fe0.1 * cfg.forceFieldStrength, fe0.2 * cfg.forceFieldStrength)
  let chargeForce := gpuChargeInteraction cfg textureSize time tex pos tc
  let gravityForce := gpuGravityInteraction cfg time tex pos tc
  let forceEffect : ℝ × ℝ :=
    (fe1.1 + chargeForce.1 + gravityForce.1, fe1.2 + chargeForce.2 + gravityForce.2)
  let brownian : ℝ × ℝ :=
    ((gpuRandom (pos.1 * 0.1 + tc.2 * 999, time + tc.1 * 777) - 0.5) * cfg.brownianMotion,
     (gpuRandom (time * 1.1 + tc.2 * 555, pos.2 * 0.1 + tc.1 * 333) - 0.5) * cfg.brownianMotion)
  let mouseForce := gpuMouseForce mouse cfg.speed pos
  let flowDir1 : ℝ × ℝ := (flowDir.1 + mouseForce.1, flowDir.2 + mouseForce.2)
  let gf0 : ℝ × ℝ := (0, -cfg.globalGravity)
  let globalForces : ℝ × ℝ :=
    if |cfg.globalSwirl| > 0.001 then
      let centerX := resW * 0.5
      let centerY := resH * 0.5
      let toCenterX := pos.1 - centerX
      let toCenterY := pos.2 - centerY
      let perpX := -toCenterY
      let perpY := toCenterX
      let dist := vlen toCenterX toCenterY
      let swirlStrength := cfg.globalSwirl * (1 - dist / vlen centerX centerY)
      let pl := vlen perpX perpY
      (gf0.1 + perpX / pl * (swirlStrength * 2), gf0.2 + perpY / pl * (swirlStrength * 2))
    else gf0
  let flowDir2 : ℝ × ℝ := (flowDir1.1 + globalForces.1, flowDir1.2 + globalForces.2)
  let flowDir3 := gpuZonesAdjust cfg time pos flowDir2
  let vel1 : ℝ × ℝ :=
    if cfg.noiseMode = 5 then
      let accX := (forceEffect.1 + mouseForce.1 + globalForces.1 + brownian.1) * 0.1
      let accY := (forceEffect.2 + mouseForce.2 + globalForces.2 + brownian.2) * 0.1
      ((vel.1 + accX) * (1 - cfg.friction), (vel.2 + accY) * (1 - cfg.friction))
    else
      mix2 vel (flowDir3.1 + forceEffect.1 + brownian.1, flowDir3.2 + forceEffect.2 + brownian.2) 0.3
  let pos1 : ℝ × ℝ := (pos.1 + vel1.1, pos.2 + vel1.2)
  let pos2 : ℝ × ℝ := (gpuWrap resW pos1.1, gpuWrap resH pos1.2)
  let respawnRand := gpuRandom (tc.1 * 777 + time, tc.2 * 777 + time)
  if respawnRand < cfg.respawnRate then
    let seedX := gpuRandom (tc.2 * 9999, time * 3.7 + tc.1 * 1111)
    let seedY := gpuRandom (time * 2.3 + tc.1 * 7777, tc.2 * 3333)
    (seedX * resW, seedY * resH, 0, 0)
  else
    (pos2.1, pos2.2, vel1.1, vel1.2)

/-! ## GPU variant: host-side force-field bookkeeping (part_002, class FlowFieldsGL) -/

/-- Embedding of `addForceField(x, y, type)`.  At capacity (`maxForceFields`
= 40) the oldest entry is shifted off first.  `enabled` is
`enabledForceTypes` as the list of enabled type indices; `r*` are the
`Math.random()` draws in source order. -/
noncomputable def gpuAddForceField (cfg : GpuConfig) (enabled : List ℕ)
    (x y : ℝ) (typeParam : ℤ) (rType rLife rStr rRad rRot rVx rVy : ℝ)
    (fs : List GpuHostField) : List GpuHostField :=
  let fs1 := if 40 ≤ fs.length then fs.tail else fs
  if typeParam < 0 ∧ enabled = [] then fs1 else
  let finalType : ℝ :=
    if typeParam < 0 then
      ((enabled.get? (⌊rType * (enabled.length : ℝ)⌋.toNat)).getD 0 : ℕ)
    else (typeParam : ℝ)
  let baseLife := 500 + rLife * 500
  let minRadius := max 40 (cfg.maxForceRadius * 0.3)
  let radiusRange := cfg.maxForceRadius - minRadius
  fs1 ++ [{ x := x, y := y, ftype := finalType,
            strength := 50 + rStr * 100,
            radius := minRadius + rRad * radiusRange,
            rotation := if rRot > 0.5 then 1 else -1,
            life := baseLife * cfg.forceLifetime,
            vx := (rVx - 0.5) * 0.5,
            vy := (rVy - 0.5) * 0.5 }]

/-- One frame of host-side aging for one GPU force field: drift, decrement
life, and bounce the drift velocity when the moved position is out of
bounds (no clamping in the GPU variant). -/
noncomputable def gpuAgeField (w h : ℝ) (f : GpuHostField) : GpuHostField :=
  let x1 := f.x + f.vx
  let y1 := f.y + f.vy
  { f with
    x := x1
    y := y1
    life := f.life - 1
    vx := if x1 < 0 ∨ x1 > w then -f.vx else f.vx
    vy := if y1 < 0 ∨ y1 > h then -f.vy else f.vy }

/-- Embedding of `updateForceFields()`: age every field and drop the dead
ones, then (only when `forceSpawnRate > 0`) draw one random number and
possibly spawn a random field.  The result carries the updated
`Math.random()` counter into the stream `stream`; the short-circuit of the
JS `&&` determines how many draws are consumed. -/
noncomputable def gpuUpdateForceFields (cfg : GpuConfig) (enabled : List ℕ)
    (w h : ℝ) (stream : ℕ → ℝ) (fs : List GpuHostField) (k : ℕ) :
    List GpuHostField × ℕ :=
  let aged := (fs.map (gpuAgeField w h)).filter (fun f => ¬ f.life ≤ 0)
  if 0 < cfg.forceSpawnRate then
    if stream k < cfg.forceSpawnRate / 60 then
      if aged.length < 40 then
        (gpuAddForceField cfg enabled (stream (k + 1) * w) (stream (k + 2) * h) (-1)
          (stream (k + 3)) (stream (k + 4)) (stream (k + 5)) (stream (k + 6))
          (stream (k + 7)) (stream (k + 8)) (stream (k + 9)) aged,
         k + 10)
      else (aged, k + 1)
    else (aged, k + 1)
  else (aged, k)

/-- The operations that mutate the GPU force-field list: a click/tap spawn
(`addForceField`, possibly evicting the oldest) and the per-frame
`updateForceFields` pass (age, drop dead, maybe random-spawn). -/
inductive GpuOp
  | click (x y : ℝ) (typeParam : ℤ) (rType rLife rStr rRad rRot rVx rVy : ℝ)
  | updateFields (w h : ℝ) (stream : ℕ → ℝ) (k : ℕ)

/-- Apply one GPU force-field operation. -/
noncomputable def gpuApplyOp (cfg : GpuConfig) (enabled : List ℕ)
    (fs : List GpuHostField) : GpuOp → List GpuHostField
  | .click x y tp r1 r2 r3 r4 r5 r6 r7 =>
      gpuAddForceField cfg enabled x y tp r1 r2 r3 r4 r5 r6 r7 fs
  | .updateFields w h stream k => (gpuUpdateForceFields cfg enabled w h stream fs k).1

/-- Run a sequence of GPU force-field operations. -/
noncomputable def gpuRunOps (cfg : GpuConfig) (enabled : List ℕ)
    (ops : List GpuOp) (fs : List GpuHostField) : List GpuHostField :=
  ops.foldl (gpuApplyOp cfg enabled) fs

/-! ## GPU variant: the ping-pong particle state store (FlowFieldsGL.update / render) -/

/-- The double-buffered particle state store: the two textures of
`particleTextures` and the `currentTexture` index. -/
structure PingPong (σ : Type) where
  tex0 : σ
  tex1 : σ
  currentTexture : Fin 2

/-- Texture lookup by buffer index (`particleTextures[i]`). -/
def texAt {σ : Type} (s : PingPong σ) (i : Fin 2) : σ :=
  if i = 0 then s.tex0 else s.tex1

/-- Embedding of the buffer discipline of `FlowFieldsGL.update()`: read from
`particleTextures[currentTexture]`, write the physics pass's output into
`particleTextures[1 - currentTexture]`, then swap `currentTexture`. -/
def ppUpdate {σ : Type} (pass : σ → σ) (s : PingPong σ) : PingPong σ :=
  let readTex := texAt s s.currentTexture
  let w : Fin 2 := 1 - s.currentTexture
  let s' := if w = 0 then { s with tex0 := pass readTex } else { s with tex1 := pass readTex }
  { s' with currentTexture := w }

/-- The buffer `FlowFieldsGL.render()` binds for the compositor:
`particleTextures[currentTexture]` after the update's swap. -/
def renderSource {σ : Type} (s : PingPong σ) : σ :=
  texAt s s.currentTexture

/-! ## GPU variant: the whole per-frame step (FlowFieldsGL.update) -/

/-- A particle texture: texture coordinates to `(x, y, vx, vy)`. -/
def GpuTex : Type := (ℝ × ℝ) → ℝ × ℝ × ℝ × ℝ

/-- The per-frame simulation state of `FlowFieldsGL`: the force-field list,
the `Math.random()` counter, the frame counter `config.time`, and the
double-buffered particle store. -/
structure GpuSimState where
  fields : List GpuHostField
  rctr : ℕ
  time : ℝ
  pp : PingPong GpuTex

/-- Embedding of one `FlowFieldsGL.update()` call: update the force fields
(the only consumer of `Math.random()`), then run the physics shader over the
read texture into the write texture and swap, then increment `config.time`. -/
noncomputable def gpuStep (cfg : GpuConfig) (enabled : List ℕ)
    (resW resH textureSize : ℝ) (mouse : GpuMouse) (stream : ℕ → ℝ)
    (s : GpuSimState) : GpuSimState :=
  let fk := gpuUpdateForceFields cfg enabled resW resH stream s.fields s.rctr
  let u := gpuFieldUniforms fk.1
  let pass : GpuTex → GpuTex := fun tex tc =>
    gpuMain cfg s.time resW resH textureSize mouse u fk.1.length tex tc
  { fields := fk.1
    rctr := fk.2
    time := s.time + 1
    pp := ppUpdate pass s.pp }

/-- N frames of `FlowFieldsGL.update()`. -/
noncomputable def gpuRun (cfg : GpuConfig) (enabled : List ℕ)
    (resW resH textureSize : ℝ) (mouse : GpuMouse) (stream : ℕ → ℝ)
    (n : ℕ) (s : GpuSimState) : GpuSimState :=
  match n with
  | 0 => s
  | n + 1 => gpuRun cfg enabled resW resH textureSize mouse stream n
      (gpuStep cfg enabled resW resH textureSize mouse stream s)

/-! ## GPU variant: setConfig (part_002, the UI-facing setter) -/

/-- The configuration keys of interest to claim C8. -/
inductive ConfigKey
  | backgroundStrength | forceFieldStrength

/-- Embedding of `setConfig(key, value)`: a raw assignment
`flowFieldsGL.config[key] = value` with no validation or clamping. -/
noncomputable def gpuSetConfig (key : ConfigKey) (v : ℝ) (cfg : GpuConfig) : GpuConfig :=
  match key with
  | .backgroundStrength => { cfg with backgroundStrength := v }
  | .forceFieldStrength => { cfg with forceFieldStrength := v }

/-! ## Concrete scenario values used by the claim theorems and witnesses -/

/-- The default CPU configuration of flow.js. -/
noncomputable def cpuDefaultConfig : CpuConfig :=
  { noiseScale := 0.003
    speed := 2
    noiseMode := 1
    backgroundStrength := 1.0
    forceFieldStrength := 1.0
    brownianMotion := 1
    spawnRate := 0.008
    respawnRate := 0.005
    globalGravity := 0
    interactionStrength := 1.0
    interactionRadius := 50
    mouseMode := .vortex
    particleInteraction := .zones }

/-- A mouse state with zero effect radius (pointer effectively inactive). -/
noncomputable def mouseOff : GpuMouse :=
  { x := 0, y := 0, radius := 0, strength := 1.0, mode := 0 }

/-- A noise generator with arbitrary concrete tables, for witnesses. -/
noncomputable def gen0 : NoiseGenerator :=
  { perm := fun _ => 0, gradP := fun _ => (1, 1) }

/-- Claim C1 scenario: a live sink field at (450, 500) with strength 100,
radius 130 and normalized life 1.5, as a uniform entry. -/
noncomputable def c1field : GpuField :=
  { x := 450, y := 500, ftype := 0, strength := 100, radius := 130,
    rotation := 1, life := 1.5, active := 1 }

/-- Claim C2 scenario configuration: forces-only mode, zero Brownian, zero
respawn, zero friction, no auto-spawn. -/
noncomputable def c2cfg : GpuConfig :=
  { gpuDefaultConfig with
    noiseMode := 5, brownianMotion := 0, respawnRate := 0, friction := 0,
    forceSpawnRate := 0 }

/-- Claim C4 scenario: a CPU sink field at (500, 500) with radius 200 at the
start of its life (`life = maxLife`). -/
noncomputable def c4cpuField : CpuField :=
  { x := 500, y := 500, vx := 0, vy := 0, ftype := .sink, strength := 100,
    radius := 200, rotation := 0, life := 1000, maxLife := 1000,
    pulsePhase := 0, shearAngle := 0, laneAngle := 0, turbulenceSeed := 0 }

/-- Claim C4 scenario: a GPU uniform entry for a freshly spawned sink field
(raw life 750 = its spawn value, normalized to 1.5). -/
noncomputable def c4gpuField : GpuField :=
  { x := 500, y := 500, ftype := 0, strength := 100, radius := 200,
    rotation := 1, life := 1.5, active := 1 }

/-- Claim C4 scenario: the same GPU field at the end of its life
(normalized life 0). -/
noncomputable def c4gpuField0 : GpuField :=
  { x := 500, y := 500, ftype := 0, strength := 100, radius := 200,
    rotation := 1, life := 0, active := 1 }

/-- Claim C5 counterexample configuration: the claim's conditions (forces
only, zero Brownian, zero respawn) but with the automatic force-field spawn
rate set to 60 (one spawn attempt per frame). -/
noncomputable def c5cfgX : GpuConfig :=
  { gpuDefaultConfig with
    noiseMode := 5, brownianMotion := 0, respawnRate := 0, friction := 0,
    forceSpawnRate := 60 }

/-- Claim C5 amended-theorem configuration: as `c5cfgX` but with the
automatic spawn rate 0. -/
noncomputable def c5cfg : GpuConfig :=
  { gpuDefaultConfig with
    noiseMode := 5, brownianMotion := 0, respawnRate := 0, friction := 0,
    forceSpawnRate := 0 }

/-- First run's `Math.random()` stream for the C5 counterexample: the spawn
lands a sink field at (450, 500). -/
noncomputable def c5streamA : ℕ → ℝ := fun k =>
  if k = 1 then 0.45
  else if k = 2 then 0.5
  else if k = 4 then 0.5
  else if k = 5 then 0.5
  else if k = 6 then 0.5
  else if k = 7 then 0.9
  else if k = 8 then 0.5
  else if k = 9 then 0.5
  else 0

/-- Second run's stream: identical except the spawn's x-draw, which lands the
field at (900, 500), out of range of the probe particle. -/
noncomputable def c5streamB : ℕ → ℝ := fun k =>
  if k = 1 then 0.9
  else if k = 2 then 0.5
  else if k = 4 then 0.5
  else if k = 5 then 0.5
  else if k = 6 then 0.5
  else if k = 7 then 0.9
  else if k = 8 then 0.5
  else if k = 9 then 0.5
  else 0

/-- The shared C5 initial state: no force fields, one particle at (500, 500)
at rest (the texture is constant in the coordinate). -/
noncomputable def c5state0 : GpuSimState :=
  { fields := []
    rctr := 0
    time := 0
    pp := { tex0 := fun _ => (500, 500, 0, 0)
            tex1 := fun _ => (500, 500, 0, 0)
            currentTexture := 0 } }

/-- Claim C6 counterexample configuration: classic noise mode, zero Brownian,
zero respawn, otherwise the GPU defaults. -/
noncomputable def c6cfg : GpuConfig :=
  { gpuDefaultConfig with
    noiseMode := 0, brownianMotion := 0, respawnRate := 0 }

/-- Claim C6 counterexample: the GPU step of the scenario particle at
(100, 100) with zero velocity, no fields, no mouse. -/
noncomputable def c6res : ℝ × ℝ × ℝ × ℝ :=
  gpuMain c6cfg 0 1000 1000 1 mouseOff (gpuFieldUniforms []) 0
    (fun _ => (100, 100, 0, 0)) (0.5, 0.5)

/-- The angle the claim's formula prescribes for the C6 scenario:
`θ = noiseValue * 4π` at the sample point `(100 * noiseScale, 100 * noiseScale)`
with `noiseScale = 0.003`. -/
noncomputable def c6theta : ℝ :=
  gpuSnoise (100 * 0.003, 100 * 0.003) * (Real.pi * 4)

/-- Claim C6 witness configuration: the CPU defaults with classic noise and
Brownian motion off. -/
noncomputable def c6cpuCfg : CpuConfig :=
  { cpuDefaultConfig with noiseMode := 0, brownianMotion := 0 }

/-- Claim C6 witness particle: fresh at (100, 100). -/
noncomputable def c6particle : CpuParticle :=
  { x := 100, y := 100, prevX := 100, prevY := 100, speed := 2, life := 0,
    maxLife := 150, velocity := 0 }

/-- Claim C6 witness mouse: inactive. -/
noncomputable def c6mouse : CpuMouse :=
  { x := 0, y := 0, radius := 150, active := false }

/-! ## Helper lemmas -/

theorem glslFract_eq_fract (x : ℝ) : glslFract x = Int.fract x := rfl

theorem glslFract_nonneg (x : ℝ) : 0 ≤ glslFract x := by
  rw [glslFract_eq_fract]; exact Int.fract_nonneg x

theorem gpuRandom_nonneg (st : ℝ × ℝ) : 0 ≤ gpuRandom st := by
  unfold gpuRandom; exact glslFract_nonneg _

@[simp]
theorem gpuRandom_not_lt_zero (st : ℝ × ℝ) : ¬ gpuRandom st < 0 :=
  not_lt.2 (gpuRandom_nonneg st)

theorem vlen_nonneg (x y : ℝ) : 0 ≤ vlen x y := Real.sqrt_nonneg _

@[simp]
theorem vlen_not_lt_zero (x y : ℝ) : ¬ vlen x y < 0 :=
  not_lt.2 (vlen_nonneg x y)

theorem vlenEval (x y d : ℝ) (hd : 0 ≤ d) (h : x * x + y * y = d * d) :
    vlen x y = d := by
  unfold vlen
  rw [h, show d * d = d ^ 2 by ring, Real.sqrt_sq hd]

theorem vlen_mul_self (x y : ℝ) : vlen x y * vlen x y = x * x + y * y := by
  unfold vlen
  exact Real.mul_self_sqrt (add_nonneg (mul_self_nonneg x) (mul_self_nonneg y))

theorem vlen_eq_zero_of (x y : ℝ) (hx : x = 0) (hy : y = 0) : vlen x y = 0 := by
  subst hx hy; unfold vlen; simp

theorem gpuWrap_eq_self (w p : ℝ) (h1 : ¬ p < 0) (h2 : ¬ p > w) : gpuWrap w p = p := by
  unfold gpuWrap
  rw [if_neg h1, if_neg h2]

/-- If both normalized components of a vector with length > 5 vanish, we have
a contradiction: the vector itself is 0, so its length is 0. -/
theorem unit_components_ne (dx dy : ℝ) (hd : 5 < vlen dx dy)
    (h1 : dx / vlen dx dy = 0) (h2 : dy / vlen dx dy = 0) : False := by
  have hne : vlen dx dy ≠ 0 := ne_of_gt (lt_trans (by norm_num) hd)
  have hx : dx = 0 := by
    rcases div_eq_zero_iff.1 h1 with h | h
    · exact h
    · exact absurd h hne
  have hy : dy = 0 := by
    rcases div_eq_zero_iff.1 h2 with h | h
    · exact h
    · exact absurd h hne
  have := vlen_eq_zero_of dx dy hx hy
  rw [this] at hd
  norm_num at hd

/-- C6/CPU helper: the interaction block is the identity when there are no
other particles. -/
theorem cpuInteractionAdjust_nil (cfg : CpuConfig) (gen : NoiseGenerator)
    (time : ℝ) (p : CpuParticle) (mv : ℝ × ℝ) :
    cpuInteractionAdjust cfg gen time [] p mv = mv := by
  unfold cpuInteractionAdjust
  split
  · rfl
  · simp

/-! ## Claim C3: the double-buffering discipline -/

/-- C3: the Particle State Store keeps the double-buffering discipline.
`currentTexture : Fin 2` makes exactly one buffer current at any time; one
`update()` (i) flips which buffer is current, (ii) leaves the buffer it read
(the old current one) untouched, so a step never reads state written during
that same step, and (iii) makes current exactly the buffer into which the
physics pass wrote the step function of the old current contents, which is
the buffer `render()` then binds for the compositor. -/
theorem claim3_double_buffering {σ : Type} (pass : σ → σ) (s : PingPong σ) :
    (ppUpdate pass s).currentTexture ≠ s.currentTexture ∧
    texAt (ppUpdate pass s) s.currentTexture = texAt s s.currentTexture ∧
    texAt (ppUpdate pass s) ((ppUpdate pass s).currentTexture) =
      pass (texAt s s.currentTexture) ∧
    renderSource (ppUpdate pass s) = pass (texAt s s.currentTexture) := by
  obtain ⟨t0, t1, c⟩ := s
  fin_cases c <;>
    simp [ppUpdate, texAt, renderSource, show ((1 : Fin 2) - 0) = 1 from rfl,
      show ((1 : Fin 2) - 1) = 0 from rfl]

/-! ## Claim C9: the turbulent fBm octaves -/

/-- C9: in both variants, the turbulent-fBm noise mode (mode 1) returns
exactly `0.5*sample(x,y) + 0.25*sample(2x,2y) + 0.125*sample(4x,4y) +
0.0625*sample(8x,8y)`, four octaves of the base simplex sample at doubling
frequency and halving amplitude (for the GPU variant, at the shader's scaled
sample point `np = pos*noiseScale + time*0.0001`). -/
theorem claim9_fbm_octaves (gen : NoiseGenerator) (x y ns t : ℝ) (pos : ℝ × ℝ) :
    cpuNoiseValue gen 1 x y =
      0.5 * gen.noise2D x y + 0.25 * gen.noise2D (2 * x) (2 * y) +
        0.125 * gen.noise2D (4 * x) (4 * y) + 0.0625 * gen.noise2D (8 * x) (8 * y) ∧
    gpuGetNoiseValue 1 ns pos t =
      0.5 * gpuSnoise (pos.1 * ns + t * 0.0001, pos.2 * ns + t * 0.0001) +
        0.25 * gpuSnoise (2 * (pos.1 * ns + t * 0.0001), 2 * (pos.2 * ns + t * 0.0001)) +
        0.125 * gpuSnoise (4 * (pos.1 * ns + t * 0.0001), 4 * (pos.2 * ns + t * 0.0001)) +
        0.0625 * gpuSnoise (8 * (pos.1 * ns + t * 0.0001), 8 * (pos.2 * ns + t * 0.0001)) := by
  constructor
  · unfold cpuNoiseValue
    norm_num [mul_comm]
  · unfold gpuGetNoiseValue
    norm_num [mul_comm]

/-! ## Claim C2: the wrap invariant -/

/-- C2 (amended): the shader's per-axis wrap is a single conditional add or
subtract, so it only guarantees bounds for coordinates that left the screen
by at most one full screen width: if the post-integration coordinate lies in
`[-w, 2w]`, the wrapped coordinate lies in `[0, w]` — with the upper bound
inclusive, since a coordinate exactly at `w` (or wrapped onto `w`) is kept. -/
theorem claim2_wrap_amended (w p : ℝ) (h1 : -w ≤ p) (h2 : p ≤ 2 * w) :
    0 ≤ gpuWrap w p ∧ gpuWrap w p ≤ w := by
  simp only [gpuWrap]
  split_ifs with ha hb hb <;> constructor <;> linarith

/-- Witness for the amended C2 at `w = 100`, `p = 150`. -/
theorem claim2_wrap_amended_witness :
    (-(100 : ℝ) ≤ 150 ∧ (150 : ℝ) ≤ 2 * 100) ∧
      0 ≤ gpuWrap 100 150 ∧ gpuWrap 100 150 ≤ 100 :=
  ⟨⟨by norm_num, by norm_num⟩, claim2_wrap_amended 100 150 (by norm_num) (by norm_num)⟩

/-- Counterexample to C2 as stated: a full GPU physics step (forces-only
mode, no fields, no mouse, zero Brownian and respawn) for a particle at
(50, 50) with velocity (-200, 0) on a 100×100 screen ends at x = -50: the
single-conditional wrap adds one width to -150 and stops, so the claimed
invariant `0 ≤ x < width` fails when the velocity exceeds one screen width. -/
theorem claim2_counterexample :
    (gpuMain c2cfg 0 100 100 1 mouseOff (gpuFieldUniforms []) 0
        (fun _ => (50, 50, -200, 0)) (0.5, 0.5)).1 = -50 ∧
    ¬ 0 ≤ (gpuMain c2cfg 0 100 100 1 mouseOff (gpuFieldUniforms []) 0
        (fun _ => (50, 50, -200, 0)) (0.5, 0.5)).1 := by
  have h : (gpuMain c2cfg 0 100 100 1 mouseOff (gpuFieldUniforms []) 0
      (fun _ => (50, 50, -200, 0)) (0.5, 0.5)).1 = -50 := by
    unfold gpuMain
    norm_num [c2cfg, gpuDefaultConfig, mouseOff, gpuGetNoiseValue,
      gpuForceFieldEffect, gpuChargeInteraction, gpuGravityInteraction,
      gpuMouseForce, gpuMouseDist, gpuZonesAdjust, gpuWrap, mix2]
  exact ⟨h, by rw [h]; norm_num⟩

/-! ## Claim C7: the force-field capacity invariant -/

theorem cpuApplyOp_length (fs : List CpuField) (op : CpuOp)
    (h : fs.length ≤ 15) : (cpuApplyOp fs op).length ≤ 15 := by
  cases op with
  | spawnKey f =>
      simp only [cpuApplyOp]
      split_ifs with hl
      · simp only [List.length_append, List.length_cons, List.length_nil]
        omega
      · exact h
  | clickSpawn f =>
      simp only [cpuApplyOp]
      split_ifs with hl
      · simp only [List.length_append, List.length_cons, List.length_nil]
        omega
      · exact h
  | clearAll => simp [cpuApplyOp]
  | stepFields w hh =>
      simp only [cpuApplyOp, List.length_map]
      exact le_trans (List.length_filter_le _ _) h

theorem gpuAddForceField_length (cfg : GpuConfig) (enabled : List ℕ)
    (x y : ℝ) (tp : ℤ) (r1 r2 r3 r4 r5 r6 r7 : ℝ) (fs : List GpuHostField)
    (h : fs.length ≤ 40) :
    (gpuAddForceField cfg enabled x y tp r1 r2 r3 r4 r5 r6 r7 fs).length ≤ 40 := by
  simp only [gpuAddForceField]
  set fs1 := if 40 ≤ fs.length then fs.tail else fs with hfs1
  have h1 : fs1.length + 1 ≤ 40 := by
    rw [hfs1]; split_ifs with hc
    · simp only [List.length_tail]; omega
    · omega
  split
  · omega
  · simp only [List.length_append, List.length_cons, List.length_nil]
    omega

theorem gpuUpdateForceFields_length (cfg : GpuConfig) (enabled : List ℕ)
    (w h : ℝ) (stream : ℕ → ℝ) (fs : List GpuHostField) (k : ℕ)
    (hl : fs.length ≤ 40) :
    (gpuUpdateForceFields cfg enabled w h stream fs k).1.length ≤ 40 := by
  simp only [gpuUpdateForceFields]
  have haged : ((fs.map (gpuAgeField w h)).filter (fun f => ¬ f.life ≤ 0)).length ≤ 40 := by
    refine le_trans (le_trans (List.length_filter_le _ _) ?_) hl
    simp [List.length_map]
  split_ifs with h1 h2 h3
  · exact gpuAddForceField_length _ _ _ _ _ _ _ _ _ _ _ _ _ haged
  · exact haged
  · exact haged
  · exact haged

theorem gpuApplyOp_length (cfg : GpuConfig) (enabled : List ℕ)
    (fs : List GpuHostField) (op : GpuOp) (h : fs.length ≤ 40) :
    (gpuApplyOp cfg enabled fs op).length ≤ 40 := by
  cases op with
  | click x y tp r1 r2 r3 r4 r5 r6 r7 =>
      exact gpuAddForceField_length cfg enabled x y tp r1 r2 r3 r4 r5 r6 r7 fs h
  | updateFields w hh stream k =>
      exact gpuUpdateForceFields_length cfg enabled w hh stream fs k h

/-- C7: after any sequence of force-field spawn calls (keyboard or random
spawns and click/tap spawns, interleaved with per-frame field updates), the
CPU force-field list never exceeds 15 entries and the GPU list never exceeds
40 entries, starting from any state within the caps — a spawn at capacity is
a no-op in the CPU variant (and the stricter click guard at 10 also keeps the
cap) and evicts the oldest entry in the GPU variant. -/
theorem claim7_capacity (opsC : List CpuOp) (fsC : List CpuField)
    (cfg : GpuConfig) (enabled : List ℕ) (opsG : List GpuOp)
    (fsG : List GpuHostField)
    (hC : fsC.length ≤ 15) (hG : fsG.length ≤ 40) :
    (cpuRunOps opsC fsC).length ≤ 15 ∧
      (gpuRunOps cfg enabled opsG fsG).length ≤ 40 := by
  constructor
  · unfold cpuRunOps
    induction opsC generalizing fsC with
    | nil => exact hC
    | cons op ops ih =>
        simp only [List.foldl_cons]
        exact ih _ (cpuApplyOp_length fsC op hC)
  · unfold gpuRunOps
    induction opsG generalizing fsG with
    | nil => exact hG
    | cons op ops ih =>
        simp only [List.foldl_cons]
        exact ih _ (gpuApplyOp_length cfg enabled fsG op hG)

/-- Witness for C7: both runs start empty; the CPU run spawns twice and
clears, the GPU run performs one frame update with a spawning stream. -/
theorem claim7_capacity_witness :
    (([] : List CpuField).length ≤ 15 ∧ ([] : List GpuHostField).length ≤ 40) ∧
    (cpuRunOps [CpuOp.clearAll] []).length ≤ 15 ∧
      (gpuRunOps gpuDefaultConfig [0, 1, 2, 3, 4]
        [GpuOp.updateFields 1000 1000 (fun _ => 0) 0] []).length ≤ 40 :=
  ⟨⟨by simp, by simp⟩,
    claim7_capacity [CpuOp.clearAll] [] gpuDefaultConfig [0, 1, 2, 3, 4]
      [GpuOp.updateFields 1000 1000 (fun _ => 0) 0] [] (by simp) (by simp)⟩

/-! ## Claim C8: configuration clamping -/

theorem cpuApplyKey_bounds (s : ℝ × ℝ) (k : CpuKey)
    (h1 : 0 ≤ s.1) (h2 : s.1 ≤ 2) (h3 : 0.2 ≤ s.2) (h4 : s.2 ≤ 3) :
    0 ≤ (cpuApplyKey s k).1 ∧ (cpuApplyKey s k).1 ≤ 2 ∧
      0.2 ≤ (cpuApplyKey s k).2 ∧ (cpuApplyKey s k).2 ≤ 3 := by
  cases k <;>
    simp only [cpuApplyKey] <;>
    refine ⟨?_, ?_, ?_, ?_⟩ <;>
    first
      | assumption
      | exact le_max_left _ _
      | exact min_le_left _ _
      | (apply max_le <;> linarith)
      | (apply le_min <;> linarith)

/-- C8 (amended): the CPU keyboard adjustments clamp — after any sequence of
the '[' , ']' , '-' , '=' handlers starting within the documented bounds,
`backgroundStrength` stays in `[0, 2]` and `forceFieldStrength` stays in
`[0.2, 3]`, and no handler can fail (each is a total clamp).  The GPU
`setConfig`, by contrast, stores values unvalidated (see the
counterexample), though it too never raises. -/
theorem claim8_clamping_amended (ks : List CpuKey) (s : ℝ × ℝ)
    (h1 : 0 ≤ s.1) (h2 : s.1 ≤ 2) (h3 : 0.2 ≤ s.2) (h4 : s.2 ≤ 3) :
    0 ≤ (cpuRunKeys ks s).1 ∧ (cpuRunKeys ks s).1 ≤ 2 ∧
      0.2 ≤ (cpuRunKeys ks s).2 ∧ (cpuRunKeys ks s).2 ≤ 3 := by
  unfold cpuRunKeys
  induction ks generalizing s with
  | nil => exact ⟨h1, h2, h3, h4⟩
  | cons k ks ih =>
      simp only [List.foldl_cons]
      obtain ⟨b1, b2, b3, b4⟩ := cpuApplyKey_bounds s k h1 h2 h3 h4
      exact ih _ b1 b2 b3 b4

/-- Witness for the amended C8: both strengths start at their defaults 1.0
and a '[' press keeps them in bounds. -/
theorem claim8_clamping_amended_witness :
    ((0 : ℝ) ≤ 1 ∧ (1 : ℝ) ≤ 2 ∧ (0.2 : ℝ) ≤ 1 ∧ (1 : ℝ) ≤ 3) ∧
    (0 ≤ (cpuRunKeys [CpuKey.lbracket] (1, 1)).1 ∧
      (cpuRunKeys [CpuKey.lbracket] (1, 1)).1 ≤ 2 ∧
      0.2 ≤ (cpuRunKeys [CpuKey.lbracket] (1, 1)).2 ∧
      (cpuRunKeys [CpuKey.lbracket] (1, 1)).2 ≤ 3) :=
  ⟨⟨by norm_num, by norm_num, by norm_num, by norm_num⟩,
    claim8_clamping_amended [CpuKey.lbracket] (1, 1)
      (by norm_num) (by norm_num) (by norm_num) (by norm_num)⟩

/-- Counterexample to C8 as stated: the GPU variant's `setConfig` performs a
raw assignment with no clamping, so setting `backgroundStrength` to 999
leaves the configuration outside the documented range `[0, 2]` (no error is
raised: the assignment is total and simply stores the value). -/
theorem claim8_counterexample :
    (gpuSetConfig .backgroundStrength 999 gpuDefaultConfig).backgroundStrength = 999 ∧
    ¬ (gpuSetConfig .backgroundStrength 999 gpuDefaultConfig).backgroundStrength ≤ 2 := by
  constructor
  · rfl
  · simp only [gpuSetConfig]
    norm_num

/-! ## Claim C10: the mouse interaction guards -/

/-- C10: in both variants the mouse contributes exactly zero when the
particle is within 5 units of the pointer or at/beyond the effect radius
(and, in the CPU variant, whenever the pointer is inactive); consequently
any nonzero GPU mouse force implies the pointer distance is strictly above
5, so the normalization by the distance never divides by zero. -/
theorem claim10_mouse_guards :
    (∀ (mouse : GpuMouse) (speed : ℝ) (pos : ℝ × ℝ),
        gpuMouseDist mouse pos ≤ 5 ∨ mouse.radius ≤ gpuMouseDist mouse pos →
        gpuMouseForce mouse speed pos = (0, 0)) ∧
    (∀ (mouse : GpuMouse) (speed : ℝ) (pos : ℝ × ℝ),
        gpuMouseForce mouse speed pos ≠ (0, 0) → 5 < gpuMouseDist mouse pos) ∧
    (∀ (cfg : CpuConfig) (mouse : CpuMouse) (px py : ℝ) (mv : ℝ × ℝ),
        mouse.active = false ∨ vlen (px - mouse.x) (py - mouse.y) ≤ 5 ∨
          mouse.radius ≤ vlen (px - mouse.x) (py - mouse.y) →
        cpuMouseAdjust cfg mouse px py mv = mv) := by
  refine ⟨?_, ?_, ?_⟩
  · intro mouse speed pos h
    simp only [gpuMouseForce]
    rw [if_neg]
    rcases h with h | h
    · exact fun hc => absurd hc.2 (not_lt.2 h)
    · exact fun hc => absurd hc.1 (not_lt.2 h)
  · intro mouse speed pos h
    by_contra hc
    apply h
    simp only [gpuMouseForce]
    rw [if_neg]
    exact fun hg => hc hg.2
  · intro cfg mouse px py mv h
    simp only [cpuMouseAdjust]
    rcases h with h | h
    · rw [h]; simp
    · cases ha : mouse.active with
      | false => simp
      | true =>
          simp only [if_true]
          rw [if_neg]
          rcases h with h | h
          · exact fun hc => absurd hc.2 (not_lt.2 h)
          · exact fun hc => absurd hc.1 (not_lt.2 h)

/-- Witness for C10: a pointer at the origin with radius 150, a particle at
(3, 4) (distance exactly 5): the GPU mouse force vanishes; and an inactive
CPU pointer leaves the move vector unchanged. -/
theorem claim10_mouse_guards_witness :
    gpuMouseDist { x := 0, y := 0, radius := 150, strength := 1, mode := 0 } (3, 4) ≤ 5 ∧
    gpuMouseForce { x := 0, y := 0, radius := 150, strength := 1, mode := 0 } 2 (3, 4) = (0, 0) ∧
    cpuMouseAdjust cpuDefaultConfig { x := 0, y := 0, radius := 150, active := false } 3 4 (1, 1) = (1, 1) := by
  have hd : gpuMouseDist { x := 0, y := 0, radius := 150, strength := 1, mode := 0 } (3, 4) = 5 := by
    simp only [gpuMouseDist]
    norm_num
    exact vlenEval 3 4 5 (by norm_num) (by norm_num)
  refine ⟨le_of_eq hd, ?_, ?_⟩
  · exact claim10_mouse_guards.1 _ 2 (3, 4) (Or.inl (le_of_eq hd))
  · exact claim10_mouse_guards.2.2 cpuDefaultConfig _ 3 4 (1, 1) (Or.inl rfl)

/-! ## Claim C4: the life-based fade envelope -/

theorem cpuLifeFactor_at_zero (f : CpuField) (h : 100 ≤ f.maxLife)
    (h0 : f.life = 0) : cpuLifeFactor f = 0 := by
  unfold cpuLifeFactor
  rw [h0, if_neg (by linarith), if_pos (by norm_num)]
  norm_num

theorem cpuLifeFactor_at_max (f : CpuField) (h0 : f.life = f.maxLife) :
    cpuLifeFactor f = 0 := by
  unfold cpuLifeFactor
  rw [h0, if_pos (by norm_num)]
  norm_num

theorem cpuLifeFactor_pos (f : CpuField) (h1 : 0 < f.life)
    (h2 : f.life < f.maxLife) : 0 < cpuLifeFactor f := by
  unfold cpuLifeFactor
  split_ifs with ha hb
  · exact div_pos (by linarith) (by norm_num)
  · exact div_pos h1 (by norm_num)
  · norm_num

theorem cpuGetForce_zero_of_lf (gen : NoiseGenerator) (t : ℝ) (f : CpuField)
    (px py : ℝ) (hlf : cpuLifeFactor f = 0) :
    f.getForce gen t px py = (0, 0) := by
  unfold CpuField.getForce
  split <;> simp [hlf]

theorem gpuFieldContrib_zero_of_life (t : ℝ) (g : GpuField) (pos : ℝ × ℝ)
    (hl : g.life = 0) : gpuFieldContrib t g pos = (0, 0) := by
  unfold gpuFieldContrib
  split_ifs <;> simp [hl]

theorem factor_eq_zero (a b : ℝ) (h : a * b = 0) (hb : b ≠ 0) : a = 0 :=
  (mul_eq_zero.1 h).resolve_right hb

theorem cpuGetForce_ne_zero (gen : NoiseGenerator) (t : ℝ) (f : CpuField)
    (px py : ℝ)
    (hd5 : 5 < vlen (px - f.x) (py - f.y))
    (hdr : vlen (px - f.x) (py - f.y) < f.radius)
    (hs : 0 < f.strength)
    (hrot : f.ftype = .vortex → f.rotation ≠ 0)
    (hl1 : 0 < f.life) (hl2 : f.life < f.maxLife) :
    f.getForce gen t px py ≠ (0, 0) := by
  simp only [CpuField.getForce]
  set dx := px - f.x with hdxd
  set dy := py - f.y with hdyd
  set d := vlen dx dy with hdd
  have hd0 : (0 : ℝ) < d := lt_trans (by norm_num) hd5
  have hdne : d ≠ 0 := ne_of_gt hd0
  have hr0 : (0 : ℝ) < f.radius := lt_trans (lt_trans (by norm_num) hd5) hdr
  have hguard : ¬ (d > f.radius ∨ d < 5) := by
    push_neg
    exact ⟨le_of_lt hdr, le_of_lt hd5⟩
  rw [if_neg hguard]
  have hpulse : (0 : ℝ) < 1 + Real.sin f.pulsePhase * 0.3 := by
    nlinarith [Real.neg_one_le_sin f.pulsePhase]
  have hfall : (0 : ℝ) < 1 - d / f.radius := by
    have : d / f.radius < 1 := (div_lt_one hr0).2 hdr
    linarith
  set F := f.strength / 100 * (1 - d / f.radius) * (1 + Real.sin f.pulsePhase * 0.3) *
    cpuLifeFactor f with hFdef
  have hF : (0 : ℝ) < F := by
    rw [hFdef]
    exact mul_pos (mul_pos (mul_pos (div_pos hs (by norm_num)) hfall) hpulse)
      (cpuLifeFactor_pos f hl1 hl2)
  have hFne : F ≠ 0 := ne_of_gt hF
  have hunit : dx / d = 0 → dy / d = 0 → False := by
    intro h1 h2
    exact unit_components_ne dx dy (hdd ▸ hd5) (hdd ▸ h1) (hdd ▸ h2)
  cases hft : f.ftype with
  | sink =>
      intro hEq
      rw [Prod.mk.injEq] at hEq
      obtain ⟨h1, h2⟩ := hEq
      have hx : dx / d = 0 := neg_eq_zero.1 (factor_eq_zero _ _ h1 hFne)
      have hy : dy / d = 0 := neg_eq_zero.1 (factor_eq_zero _ _ h2 hFne)
      exact hunit hx hy
  | source =>
      intro hEq
      rw [Prod.mk.injEq] at hEq
      obtain ⟨h1, h2⟩ := hEq
      exact hunit (factor_eq_zero _ _ h1 hFne) (factor_eq_zero _ _ h2 hFne)
  | vortex =>
      intro hEq
      rw [Prod.mk.injEq] at hEq
      obtain ⟨h1, h2⟩ := hEq
      have hrne : f.rotation ≠ 0 := hrot hft
      have hx : dx / d = 0 := factor_eq_zero _ _ (factor_eq_zero _ _ h2 hrne) hFne
      have hy : dy / d = 0 := by
        have := factor_eq_zero _ _ (factor_eq_zero _ _ h1 hrne) hFne
        have hneg : -(dy / d) = 0 := by rw [neg_div] at this; exact this
        exact neg_eq_zero.1 hneg
      exact hunit hx hy
  | gravity =>
      intro hEq
      rw [Prod.mk.injEq] at hEq
      obtain ⟨h1, h2⟩ := hEq
      have hA : (1.09 : ℝ) * (dx / d * (F * 2)) = 0 := by
        linear_combination (-1 : ℝ) * h1 + (0.3 : ℝ) * h2
      have hFne2 : F * 2 ≠ 0 := mul_ne_zero hFne (by norm_num)
      have hx : dx / d = 0 := by
        have hX : dx / d * (F * 2) = 0 := by
          rcases mul_eq_zero.1 hA with h | h
          · norm_num at h
          · exact h
        exact factor_eq_zero _ _ hX hFne2
      have hy : dy / d = 0 := by
        rw [hx] at h2
        have h2' : -(dy / d) * (F * 2) = 0 := by linear_combination h2
        exact neg_eq_zero.1 (factor_eq_zero _ _ h2' hFne2)
      exact hunit hx hy
  | shear =>
      intro hEq
      rw [Prod.mk.injEq] at hEq
      obtain ⟨h1, h2⟩ := hEq
      have hsd : (if dy > 0 then (1 : ℝ) else if dy < 0 then -1 else 1) ≠ 0 := by
        split_ifs <;> norm_num
      have hc : Real.cos f.shearAngle = 0 :=
        factor_eq_zero _ _ (factor_eq_zero _ _ (factor_eq_zero _ _ h1 (by norm_num)) hsd) hFne
      have hsn : Real.sin f.shearAngle = 0 :=
        factor_eq_zero _ _ (factor_eq_zero _ _ (factor_eq_zero _ _ h2 (by norm_num)) hsd) hFne
      nlinarith [Real.sin_sq_add_cos_sq f.shearAngle]
  | repulsor =>
      intro hEq
      rw [Prod.mk.injEq] at hEq
      obtain ⟨h1, h2⟩ := hEq
      have hRne : F * 3 * (f.radius / (d + 10)) ≠ 0 :=
        mul_ne_zero (mul_ne_zero hFne (by norm_num))
          (div_ne_zero (ne_of_gt hr0) (by linarith))
      exact hunit (factor_eq_zero _ _ h1 hRne) (factor_eq_zero _ _ h2 hRne)
  | turbulence =>
      intro hEq
      rw [Prod.mk.injEq] at hEq
      obtain ⟨h1, h2⟩ := hEq
      have hF2 : F * 2 ≠ 0 := mul_ne_zero hFne (by norm_num)
      have hc := factor_eq_zero _ _ h1 hF2
      have hsn := factor_eq_zero _ _ h2 hF2
      nlinarith [Real.sin_sq_add_cos_sq
        (gen.noise2D (px * 0.1 + f.turbulenceSeed) (py * 0.1 + t * 0.01) * Real.pi * 2)]
  | lane =>
      intro hEq
      rw [Prod.mk.injEq] at hEq
      obtain ⟨h1, h2⟩ := hEq
      have hF2 : F * 2 ≠ 0 := mul_ne_zero hFne (by norm_num)
      have hc := factor_eq_zero _ _ h1 hF2
      have hsn := factor_eq_zero _ _ h2 hF2
      nlinarith [Real.sin_sq_add_cos_sq f.laneAngle]

theorem gpuFieldContrib_ne_zero (t : ℝ) (g : GpuField) (pos : ℝ × ℝ)
    (hact : 0.5 ≤ g.active)
    (hd5 : 5 < vlen (pos.1 - g.x) (pos.2 - g.y))
    (hdr : vlen (pos.1 - g.x) (pos.2 - g.y) < g.radius)
    (hs : 0 < g.strength) (hrotne : g.rotation ≠ 0) (hl : 0 < g.life) :
    gpuFieldContrib t g pos ≠ (0, 0) := by
  simp only [gpuFieldContrib]
  rw [if_neg (not_lt.2 hact)]
  set dx := pos.1 - g.x with hdxd
  set dy := pos.2 - g.y with hdyd
  set d := vlen dx dy with hdd
  have hd0 : (0 : ℝ) < d := lt_trans (by norm_num) hd5
  have hr0 : (0 : ℝ) < g.radius := lt_trans (lt_trans (by norm_num) hd5) hdr
  have hguard : ¬ (d > g.radius ∨ d < 5) := by
    push_neg
    exact ⟨le_of_lt hdr, le_of_lt hd5⟩
  rw [if_neg hguard]
  have hfall : (0 : ℝ) < 1 - d / g.radius := by
    have : d / g.radius < 1 := (div_lt_one hr0).2 hdr
    linarith
  set s := g.strength / 100 * (1 - d / g.radius) * g.life with hsdef
  have hS : (0 : ℝ) < s := by
    rw [hsdef]
    exact mul_pos (mul_pos (div_pos hs (by norm_num)) hfall) hl
  have hSne : s ≠ 0 := ne_of_gt hS
  have hunit : dx / d = 0 → dy / d = 0 → False := by
    intro h1 h2
    exact unit_components_ne dx dy (hdd ▸ hd5) (hdd ▸ h1) (hdd ▸ h2)
  split_ifs with ht1 ht2 ht3 ht4
  · intro hEq
    rw [Prod.mk.injEq] at hEq
    obtain ⟨h1, h2⟩ := hEq
    have hx : dx / d = 0 := factor_eq_zero _ _ (neg_eq_zero.1 h1) hSne
    have hy : dy / d = 0 := factor_eq_zero _ _ (neg_eq_zero.1 h2) hSne
    exact hunit hx hy
  · intro hEq
    rw [Prod.mk.injEq] at hEq
    obtain ⟨h1, h2⟩ := hEq
    exact hunit (factor_eq_zero _ _ h1 hSne) (factor_eq_zero _ _ h2 hSne)
  · intro hEq
    rw [Prod.mk.injEq] at hEq
    obtain ⟨h1, h2⟩ := hEq
    have hx : dx / d = 0 :=
      factor_eq_zero _ _ (factor_eq_zero _ _ h2 hrotne) hSne
    have hy : dy / d = 0 := by
      have := factor_eq_zero _ _ (factor_eq_zero _ _ h1 hrotne) hSne
      have hneg : -(dy / d) = 0 := by rw [neg_div] at this; exact this
      exact neg_eq_zero.1 hneg
    exact hunit hx hy
  · intro hEq
    rw [Prod.mk.injEq] at hEq
    obtain ⟨h1, h2⟩ := hEq
    have hA : (2.045 : ℝ) * (dx / d * s) = 0 := by
      linear_combination (-1 : ℝ) * h1 + (0.15 : ℝ) * h2
    have hx : dx / d = 0 := by
      have hX : dx / d * s = 0 := by
        rcases mul_eq_zero.1 hA with h | h
        · norm_num at h
        · exact h
      exact factor_eq_zero _ _ hX hSne
    have hy : dy / d = 0 := by
      rw [hx] at h2
      have h2' : dy / d * (s * 2) = 0 := by linear_combination (-1 : ℝ) * h2
      exact factor_eq_zero _ _ h2' (mul_ne_zero hSne (by norm_num))
    exact hunit hx hy
  · intro hEq
    rw [Prod.mk.injEq] at hEq
    obtain ⟨h1, h2⟩ := hEq
    have hS2 : s * 2 ≠ 0 := mul_ne_zero hSne (by norm_num)
    have hc := factor_eq_zero _ _ h1 hS2
    have hsn := factor_eq_zero _ _ h2 hS2
    nlinarith [Real.sin_sq_add_cos_sq
      (gpuSnoise (pos.1 * 0.1 + t * 0.01, pos.2 * 0.1 + t * 0.01) * 6.28318)]

/-- C4 (amended): in the CPU variant the claim holds as stated: a field's
contributed force at a probe point strictly inside the annulus
`(5, radius)` is 0 at `life = 0` (given the constructor's `maxLife ≥ 100`,
so the two fade branches do not overlap at 0) and at `life = maxLife`, and is
nonzero for `0 < life < maxLife` (given the constructor's invariants
`strength > 0` and a nonzero rotation for vortex fields).  In the GPU
variant the uniform packs `life/500` and the shader scales by it directly,
with no fade-out ramp near the spawn value: the contribution is 0 at
`life = 0` but nonzero for every `life > 0` — including a freshly spawned
field, whose remaining life equals its maximum. -/
theorem claim4_fade_amended :
    (∀ (gen : NoiseGenerator) (t : ℝ) (f : CpuField) (px py : ℝ),
      5 < vlen (px - f.x) (py - f.y) →
      vlen (px - f.x) (py - f.y) < f.radius →
      0 < f.strength → 100 ≤ f.maxLife →
      (f.ftype = .vortex → f.rotation ≠ 0) →
      ((f.life = 0 → f.getForce gen t px py = (0, 0)) ∧
       (f.life = f.maxLife → f.getForce gen t px py = (0, 0)) ∧
       (0 < f.life → f.life < f.maxLife → f.getForce gen t px py ≠ (0, 0)))) ∧
    (∀ (t : ℝ) (g : GpuField) (pos : ℝ × ℝ),
      0.5 ≤ g.active →
      5 < vlen (pos.1 - g.x) (pos.2 - g.y) →
      vlen (pos.1 - g.x) (pos.2 - g.y) < g.radius →
      0 < g.strength → g.rotation ≠ 0 →
      ((g.life = 0 → gpuFieldContrib t g pos = (0, 0)) ∧
       (0 < g.life → gpuFieldContrib t g pos ≠ (0, 0)))) := by
  constructor
  · intro gen t f px py h1 h2 h3 h4 h5
    exact ⟨fun h0 => cpuGetForce_zero_of_lf gen t f px py (cpuLifeFactor_at_zero f h4 h0),
           fun h0 => cpuGetForce_zero_of_lf gen t f px py (cpuLifeFactor_at_max f h0),
           fun ha hb => cpuGetForce_ne_zero gen t f px py h1 h2 h3 h5 ha hb⟩
  · intro t g pos ha h1 h2 h3 h4
    exact ⟨fun h0 => gpuFieldContrib_zero_of_life t g pos h0,
           fun h0 => gpuFieldContrib_ne_zero t g pos ha h1 h2 h3 h4 h0⟩

/-- Witness for the amended C4: a CPU sink field at (500, 500) probed from
(550, 500), at `life = maxLife`, contributes zero; a GPU sink uniform entry
with normalized life 0 contributes zero. -/
theorem claim4_fade_amended_witness :
    (5 < vlen ((550 : ℝ) - c4cpuField.x) ((500 : ℝ) - c4cpuField.y) ∧
      vlen ((550 : ℝ) - c4cpuField.x) ((500 : ℝ) - c4cpuField.y) < c4cpuField.radius ∧
      0 < c4cpuField.strength ∧ 100 ≤ c4cpuField.maxLife ∧
      c4cpuField.life = c4cpuField.maxLife ∧ c4gpuField0.life = 0) ∧
    CpuField.getForce gen0 0 c4cpuField 550 500 = (0, 0) ∧
    gpuFieldContrib 0 c4gpuField0 (550, 500) = (0, 0) := by
  have hv : vlen ((550 : ℝ) - c4cpuField.x) ((500 : ℝ) - c4cpuField.y) = 50 := by
    simp only [c4cpuField]
    norm_num
    exact vlenEval 50 0 50 (by norm_num) (by norm_num)
  have hv2 : vlen ((550 : ℝ) - c4gpuField0.x) ((500 : ℝ) - c4gpuField0.y) = 50 := by
    simp only [c4gpuField0]
    norm_num
    exact vlenEval 50 0 50 (by norm_num) (by norm_num)
  refine ⟨⟨by rw [hv]; norm_num, by rw [hv]; norm_num [c4cpuField],
    by norm_num [c4cpuField], by norm_num [c4cpuField], rfl, rfl⟩, ?_, ?_⟩
  · exact (claim4_fade_amended.1 gen0 0 c4cpuField 550 500
      (by rw [hv]; norm_num)
      (by rw [hv]; norm_num [c4cpuField])
      (by norm_num [c4cpuField])
      (by norm_num [c4cpuField])
      (by intro h; simp [c4cpuField] at h)).2.1 rfl
  · exact (claim4_fade_amended.2 0 c4gpuField0 (550, 500)
      (by norm_num [c4gpuField0])
      (by rw [show ((550 : ℝ), (500 : ℝ)).1 - c4gpuField0.x = (550 : ℝ) - c4gpuField0.x from rfl,
              show ((550 : ℝ), (500 : ℝ)).2 - c4gpuField0.y = (500 : ℝ) - c4gpuField0.y from rfl, hv2]
          norm_num)
      (by rw [show ((550 : ℝ), (500 : ℝ)).1 - c4gpuField0.x = (550 : ℝ) - c4gpuField0.x from rfl,
              show ((550 : ℝ), (500 : ℝ)).2 - c4gpuField0.y = (500 : ℝ) - c4gpuField0.y from rfl, hv2]
          norm_num [c4gpuField0])
      (by norm_num [c4gpuField0])
      (by simp [c4gpuField0])).1 rfl

/-- Counterexample to C4 as stated: in the GPU variant a *freshly spawned*
sink field — one whose remaining life equals its maximum, here raw life 750
packed as the normalized 1.5 — contributes a nonzero force at an in-range
probe point, because the shader's scale `(strength/100)*falloff*(life/500)`
has no fade ramp at the high end of life. -/
theorem claim4_counterexample :
    gpuFieldContrib 0 c4gpuField (550, 500) ≠ (0, 0) := by
  have hv2 : vlen ((550 : ℝ) - c4gpuField.x) ((500 : ℝ) - c4gpuField.y) = 50 := by
    simp only [c4gpuField]
    norm_num
    exact vlenEval 50 0 50 (by norm_num) (by norm_num)
  apply gpuFieldContrib_ne_zero
  · norm_num [c4gpuField]
  · rw [show ((550 : ℝ), (500 : ℝ)).1 - c4gpuField.x = (550 : ℝ) - c4gpuField.x from rfl,
        show ((550 : ℝ), (500 : ℝ)).2 - c4gpuField.y = (500 : ℝ) - c4gpuField.y from rfl, hv2]
    norm_num
  · rw [show ((550 : ℝ), (500 : ℝ)).1 - c4gpuField.x = (550 : ℝ) - c4gpuField.x from rfl,
        show ((550 : ℝ), (500 : ℝ)).2 - c4gpuField.y = (500 : ℝ) - c4gpuField.y from rfl, hv2]
    norm_num [c4gpuField]
  · norm_num [c4gpuField]
  · simp [c4gpuField]
  · norm_num [c4gpuField]

/-! ## Claim C1: the GPU force-field loop reads only 16 of up to 40 entries -/

/-- C1 (code bug): with 17 identical live sink fields uploaded (the host
packs up to `maxForceFields = 40` entries and passes `u_forceFieldCount`),
each contributing `(-12/13, 0)` at the probe point (500, 500), the shader's
`getForceFieldEffect` returns 16 contributions — its loop is
`for (int i = 0; i < 16; i++)` — while the spec's sum over all live fields
(`specForceFieldSum`) returns 17: the 17th live in-range field is silently
omitted, refuting the claim for set sizes 17..40. -/
theorem claim1_gpu_sum_cap :
    gpuFieldContrib 0 c1field (500, 500) = (-(12 / 13), 0) ∧
    gpuForceFieldEffect (fun _ => c1field) 17 0 (500, 500) = (16 * -(12 / 13), 0) ∧
    specForceFieldSum (fun _ => c1field) 17 0 (500, 500) = (17 * -(12 / 13), 0) ∧
    gpuForceFieldEffect (fun _ => c1field) 17 0 (500, 500) ≠
      specForceFieldSum (fun _ => c1field) 17 0 (500, 500) := by
  have hv : vlen (50 : ℝ) 0 = 50 := vlenEval 50 0 50 (by norm_num) (by norm_num)
  have hc : gpuFieldContrib 0 c1field (500, 500) = (-(12 / 13), 0) := by
    norm_num [gpuFieldContrib, c1field, hv]
  have he : gpuForceFieldEffect (fun _ => c1field) 17 0 (500, 500) = (16 * -(12 / 13), 0) := by
    simp only [gpuForceFieldEffect, hc, Finset.sum_const, Finset.card_range]
    norm_num [Prod.smul_mk]
  have hs : specForceFieldSum (fun _ => c1field) 17 0 (500, 500) = (17 * -(12 / 13), 0) := by
    simp only [specForceFieldSum, hc, Finset.sum_const, Finset.card_range]
    norm_num [Prod.smul_mk]
  refine ⟨hc, he, hs, ?_⟩
  rw [he, hs]
  intro h
  rw [Prod.mk.injEq] at h
  norm_num at h

/-! ## Claim C6: the classic-mode single-particle step -/

/-- C6 (amended, CPU): in the CPU variant the claim holds exactly: with
classic noise (mode 0), Brownian amplitude 0, no force fields, no other
particles, inactive mouse, zero global gravity, and frame counter 0, one
`Particle.update` moves the particle at (100, 100) to
`(100, 100) + speed*backgroundStrength*(cos θ, sin θ)` with
`θ = noise2D(100*noiseScale, 100*noiseScale) * 4π` (`speed` being the
particle's own speed attribute).  The bounds hypotheses keep the new
position inside the canvas and the particle below its maximum age, so no
respawn fires.  (The GPU variant differs — see the counterexample: it adds
a position-dependent angle offset and blends velocity by 0.3.) -/
theorem claim6_classic_step_amended (cfg : CpuConfig) (gen : NoiseGenerator)
    (w h : ℝ) (mouse : CpuMouse) (rb1 rb2 r1 r2 r3 r4 : ℝ) (p : CpuParticle)
    (hmode : cfg.noiseMode = 0) (hbm : cfg.brownianMotion = 0)
    (hmouse : mouse.active = false) (hg : cfg.globalGravity = 0)
    (hx : p.x = 100) (hy : p.y = 100) (hlife : p.life = 0) (hml : 1 ≤ p.maxLife)
    (hsb0 : 0 ≤ p.speed * cfg.backgroundStrength)
    (hsb : p.speed * cfg.backgroundStrength ≤ 99)
    (hw : 300 ≤ w) (hh : 300 ≤ h) :
    (cpuUpdate cfg gen 0 w h mouse [] [] rb1 rb2 r1 r2 r3 r4 p).x
        = 100 + Real.cos (gen.noise2D (100 * cfg.noiseScale) (100 * cfg.noiseScale)
            * Real.pi * 4) * p.speed * cfg.backgroundStrength ∧
    (cpuUpdate cfg gen 0 w h mouse [] [] rb1 rb2 r1 r2 r3 r4 p).y
        = 100 + Real.sin (gen.noise2D (100 * cfg.noiseScale) (100 * cfg.noiseScale)
            * Real.pi * 4) * p.speed * cfg.backgroundStrength := by
  constructor <;>
  · simp only [cpuUpdate, cpuInteractionAdjust_nil, cpuMouseAdjust, hmode, hbm, hmouse, hg,
      hx, hy, hlife, List.foldl_nil, cpuNoiseValue]
    norm_num
    split_ifs with hcase
    · exfalso
      rcases hcase with hc | hc | hc | hc | hc <;>
        nlinarith [Real.neg_one_le_cos (gen.noise2D (100 * cfg.noiseScale)
            (100 * cfg.noiseScale) * Real.pi * 4),
          Real.cos_le_one (gen.noise2D (100 * cfg.noiseScale)
            (100 * cfg.noiseScale) * Real.pi * 4),
          Real.neg_one_le_sin (gen.noise2D (100 * cfg.noiseScale)
            (100 * cfg.noiseScale) * Real.pi * 4),
          Real.sin_le_one (gen.noise2D (100 * cfg.noiseScale)
            (100 * cfg.noiseScale) * Real.pi * 4)]
    · rfl

/-- Witness for the amended C6 at concrete inputs: the CPU defaults with
classic mode and zero Brownian, a fresh particle at (100, 100), inactive
mouse, a 1000×1000 canvas. -/
theorem claim6_classic_step_amended_witness :
    (c6cpuCfg.noiseMode = 0 ∧ c6cpuCfg.brownianMotion = 0 ∧
      c6mouse.active = false ∧ c6particle.x = 100 ∧
      0 ≤ c6particle.speed * c6cpuCfg.backgroundStrength ∧
      c6particle.speed * c6cpuCfg.backgroundStrength ≤ 99) ∧
    (cpuUpdate c6cpuCfg gen0 0 1000 1000 c6mouse [] [] 0 0 0 0 0 0 c6particle).x
        = 100 + Real.cos (gen0.noise2D (100 * c6cpuCfg.noiseScale)
            (100 * c6cpuCfg.noiseScale) * Real.pi * 4)
            * c6particle.speed * c6cpuCfg.backgroundStrength ∧
    (cpuUpdate c6cpuCfg gen0 0 1000 1000 c6mouse [] [] 0 0 0 0 0 0 c6particle).y
        = 100 + Real.sin (gen0.noise2D (100 * c6cpuCfg.noiseScale)
            (100 * c6cpuCfg.noiseScale) * Real.pi * 4)
            * c6particle.speed * c6cpuCfg.backgroundStrength :=
  ⟨⟨rfl, by norm_num [c6cpuCfg, cpuDefaultConfig], rfl, rfl,
      by norm_num [c6cpuCfg, c6particle, cpuDefaultConfig],
      by norm_num [c6cpuCfg, c6particle, cpuDefaultConfig]⟩,
    claim6_classic_step_amended c6cpuCfg gen0 1000 1000 c6mouse 0 0 0 0 0 0 c6particle
      rfl (by norm_num [c6cpuCfg, cpuDefaultConfig]) rfl
      (by norm_num [c6cpuCfg, cpuDefaultConfig]) rfl rfl rfl
      (by norm_num [c6particle])
      (by norm_num [c6cpuCfg, c6particle, cpuDefaultConfig])
      (by norm_num [c6cpuCfg, c6particle, cpuDefaultConfig])
      (by norm_num) (by norm_num)⟩

/-- Counterexample to C6 as stated for the GPU variant: in the same scenario
(classic mode, particle at (100, 100), zero velocity, no fields, no mouse,
zero Brownian and respawn, speed = backgroundStrength = 1), the GPU step does
*not* land on `(100, 100) + (cos θ, sin θ)` with `θ = noiseValue * 4π`: the
shader adds a position-dependent angle offset `(x+y)*0.001` and blends the
velocity toward the flow by the factor 0.3, so the displacement has norm 0.3
rather than the claimed 1. -/
theorem claim6_counterexample :
    ((c6res.1, c6res.2.1) : ℝ × ℝ) ≠
      (100 + Real.cos c6theta, 100 + Real.sin c6theta) := by
  simp only [c6res, c6cfg, gpuDefaultConfig, gpuMain, gpuGetNoiseValue, gpuForceFieldEffect,
    gpuChargeInteraction, gpuGravityInteraction, gpuMouseForce, gpuMouseDist, gpuZonesAdjust,
    mouseOff, mix2]
  norm_num
  set a := (gpuSnoise (3 / 10, 3 / 10) + 1 / 5) * (6283185307 / 500000000) with ha
  have hwx : gpuWrap 1000 (100 + Real.cos a * (3 / 10)) = 100 + Real.cos a * (3 / 10) :=
    gpuWrap_eq_self _ _ (by nlinarith [Real.neg_one_le_cos a])
      (by nlinarith [Real.cos_le_one a])
  have hwy : gpuWrap 1000 (100 + Real.sin a * (3 / 10)) = 100 + Real.sin a * (3 / 10) :=
    gpuWrap_eq_self _ _ (by nlinarith [Real.neg_one_le_sin a])
      (by nlinarith [Real.sin_le_one a])
  rw [hwx, hwy]
  intro h1 h2
  have e1 : Real.cos c6theta = Real.cos a * (3 / 10) := by linarith
  have e2 : Real.sin c6theta = Real.sin a * (3 / 10) := by linarith
  have u1 := Real.sin_sq_add_cos_sq c6theta
  have u2 := Real.sin_sq_add_cos_sq a
  rw [e1, e2] at u1
  nlinarith [u1, u2]

/-! ## Claim C5: two-run determinism in forces-only mode -/

/-- C5 (amended): under noise mode 5 (forces only), Brownian amplitude 0,
respawn rate 0 *and automatic force-field spawn rate 0*, the whole per-frame
pipeline — force-field update followed by the physics pass over the
double-buffered particle store — consumes no randomness at all (the shader's
`random()` is a deterministic hash of its inputs), so two runs of any length
from identical particle, force-field and mouse state, with arbitrary and
possibly different `Math.random()` streams, produce identical states: in
particular identical particle positions and velocities. -/
theorem claim5_determinism_amended (cfg : GpuConfig) (enabled : List ℕ)
    (resW resH textureSize : ℝ) (mouse : GpuMouse) (stream1 stream2 : ℕ → ℝ)
    (n : ℕ) (s : GpuSimState)
    (hmode : cfg.noiseMode = 5) (hbm : cfg.brownianMotion = 0)
    (hrr : cfg.respawnRate = 0) (hfs : cfg.forceSpawnRate = 0) :
    gpuRun cfg enabled resW resH textureSize mouse stream1 n s =
      gpuRun cfg enabled resW resH textureSize mouse stream2 n s := by
  induction n generalizing s with
  | zero => rfl
  | succ n ih =>
      have hstep : ∀ stream : ℕ → ℝ,
          gpuStep cfg enabled resW resH textureSize mouse stream s =
            gpuStep cfg enabled resW resH textureSize mouse (fun _ => 0) s := by
        intro stream
        simp [gpuStep, gpuUpdateForceFields, hfs]
      simp only [gpuRun]
      rw [hstep stream1, hstep stream2]
      exact ih _

/-- Witness for the amended C5: the forces-only configuration with zero
spawn rate, one step, two different streams, one resting particle. -/
theorem claim5_determinism_amended_witness :
    (c5cfg.noiseMode = 5 ∧ c5cfg.brownianMotion = 0 ∧ c5cfg.respawnRate = 0 ∧
      c5cfg.forceSpawnRate = 0) ∧
    gpuRun c5cfg [0, 1, 2, 3, 4] 1000 1000 1 mouseOff c5streamA 1 c5state0 =
      gpuRun c5cfg [0, 1, 2, 3, 4] 1000 1000 1 mouseOff c5streamB 1 c5state0 :=
  ⟨⟨rfl, rfl, rfl, rfl⟩,
    claim5_determinism_amended c5cfg [0, 1, 2, 3, 4] 1000 1000 1 mouseOff
      c5streamA c5streamB 1 c5state0 rfl rfl rfl rfl⟩

/-- Counterexample to C5 as stated: with the claim's conditions (noise mode
5, Brownian 0, respawn 0) but a nonzero automatic spawn rate — which the
claim does not constrain — the per-frame force-field update draws
`Math.random()`, so two independent runs diverge.  With spawn rate 60 both
runs spawn a field on the first frame, stream A at (450, 500) (in range of
the particle at (500, 500), which is pulled to x = 500 - 6/65) and stream B
at (900, 500) (out of range, the particle stays at 500): after one step the
rendered particle positions differ. -/
theorem claim5_counterexample :
    gpuRun c5cfgX [0, 1, 2, 3, 4] 1000 1000 1 mouseOff c5streamA 1 c5state0 ≠
      gpuRun c5cfgX [0, 1, 2, 3, 4] 1000 1000 1 mouseOff c5streamB 1 c5state0 := by
  have hv50 : vlen (50 : ℝ) 0 = 50 := vlenEval 50 0 50 (by norm_num) (by norm_num)
  have hv400 : vlen (-400 : ℝ) 0 = 400 := vlenEval (-400) 0 400 (by norm_num) (by norm_num)
  intro hEq
  have h := congrArg (fun s : GpuSimState => (renderSource s.pp (0.5, 0.5)).1) hEq
  simp only [gpuRun, gpuStep, gpuUpdateForceFields, gpuAddForceField, gpuAgeField,
    gpuFieldUniforms, gpuMain, gpuGetNoiseValue, gpuForceFieldEffect, gpuFieldContrib,
    gpuChargeInteraction, gpuGravityInteraction, gpuMouseForce, gpuMouseDist, gpuZonesAdjust,
    ppUpdate, texAt, renderSource, c5state0, c5cfgX, gpuDefaultConfig, c5streamA, c5streamB,
    mouseOff, mix2, List.map_nil, List.filter_nil, List.length_nil, List.foldl_nil] at h
  have hne : ¬ (([0, 1, 2, 3, 4] : List ℕ) = []) := by simp
  norm_num [hne, Finset.sum_range_succ, Finset.sum_range_zero, List.getElem?_cons_zero,
    List.getElem?_cons_succ, List.getElem?_nil, hv50, hv400, gpuWrap] at h
